import Mathlib

/-!
# Station: clock, alarm and button state machine

A shallow embedding of `main/clock.c` and of the button / time-set tasks of
`main/main.c`.

* The file-scope variables of `clock.c` form the structure `Clock`, those of
  `main.c` the structure `Station` (which holds the clock it drives).
* Every C function becomes a function on these structures.  A function that
  reads the wall clock (`time` + `localtime_r`) takes the sample as an
  argument of type `tm`.
* Calls that leave the program (GPIO writes, `xTaskCreate`, `settimeofday`,
  `vTaskDelay`, the buzzer) are appended, in program order, to the `trace`
  of the structure whose source file makes the call.
* `unsigned int` fields are natural numbers below `2^32`; `int32_t`
  arithmetic wraps modulo `2^32` (two's complement), which is what the
  32-bit targets of the firmware compute.
-/

namespace StationCore

/-! ## Machine arithmetic -/

/-- Conversion of an integer to `int32_t`: reduction modulo `2^32` into
`[-2^31, 2^31)`. -/
def to_int32 (x : Int) : Int := (x + 2147483648) % 4294967296 - 2147483648

/-- Conversion of an integer to `unsigned int` (32 bits): reduction modulo
`2^32`. -/
def to_uint32 (x : Int) : Nat := (x % 4294967296).toNat

/-- C logical negation `!x` on an `int`. -/
def lnot (x : Nat) : Nat := if x = 0 then 1 else 0

/-! ## Calls that leave the program -/

/-- The three fields of `struct tm` that the code reads or writes. -/
structure tm where
  tm_sec : Int
  tm_min : Int
  tm_hour : Int
deriving DecidableEq

/-- External calls recorded in a trace. -/
inductive Event where
  /-- Call `gpio_set_level(gpio, level)`. -/
  | gpio_set_level (gpio : Nat) (level : Nat)
  /-- Call `xTaskCreate(ring_alarm_task, ...)`. -/
  | spawn_ring_alarm_task
  /-- Call `xTaskCreate(set_time_task, ...)`. -/
  | spawn_set_time_task
  /-- Call `settimeofday` with the time of day built by `clock_set_time`. -/
  | settimeofday (t : tm)
  /-- Call `buzzer_beep(frequency, time)`. -/
  | buzzer_beep (frequency : Nat) (time : Nat)
  /-- Call `buzzer_stop()`. -/
  | buzzer_stop
  /-- Call `vTaskDelay(pdMS_TO_TICKS(ms))`. -/
  | vTaskDelay (ms : Nat)
  /-- Call `vTaskDelete(NULL)`. -/
  | vTaskDelete
deriving DecidableEq

/-! ## clock.h / clock.c -/

/-- The struct `clock_time_t` of clock.h: three `unsigned int` fields. -/
structure clock_time_t where
  sec : Nat
  min : Nat
  hour : Nat
deriving DecidableEq

/-- The file-scope variables of clock.c.  The `int` flags `alarm_status` and
`has_alarm_tripped` are only ever assigned 0 or 1. -/
structure Clock where
  clock_time : clock_time_t
  clock_alarm_time : clock_time_t
  is_set_time_mode : Nat
  is_set_alarm_mode : Nat
  alarm_status : Nat
  has_alarm_tripped : Nat
  status_led_gpio : Nat
  trace : List Event
deriving DecidableEq

/-- The static initialisers of clock.c. -/
def Clock.initial : Clock :=
  { clock_time := ⟨0, 0, 0⟩
    clock_alarm_time := ⟨0, 0, 0⟩
    is_set_time_mode := 0
    is_set_alarm_mode := 0
    alarm_status := 0
    has_alarm_tripped := 0
    status_led_gpio := 0
    trace := [] }

def ESP_OK : Nat := 0

def ESP_ERR_INVALID_ARG : Nat := 0x102

/-- Source: `clock_is_alarm_on`. -/
def clock_is_alarm_on (c : Clock) : Nat := c.alarm_status

/-- Source: `clock_is_alarm_ringing`, `alarm_status && has_alarm_tripped`. -/
def clock_is_alarm_ringing (c : Clock) : Nat :=
  if c.alarm_status ≠ 0 ∧ c.has_alarm_tripped ≠ 0 then 1 else 0

/-- Source: `clock_enable_alarm`. -/
def clock_enable_alarm (c : Clock) : Clock :=
  { c with alarm_status := 1 }

/-- Source: `clock_disable_alarm`. -/
def clock_disable_alarm (c : Clock) : Clock :=
  { c with alarm_status := 0, has_alarm_tripped := 0 }

/-- What `clock_get_time` hands back: the return code, the variables of
clock.c after the call, the value stored through `stime` and the value stored
through `is_being_modified` (`none` when nothing is stored). -/
structure get_time_result where
  rc : Nat
  clock : Clock
  stime : Option clock_time_t
  is_being_modified : Option Bool
deriving DecidableEq

/-- Source: `clock_get_time`.  `now` is the result of `time` + `localtime_r`;
`stime` and `is_being_modified` tell whether the pointer of that name is
non-NULL. -/
def clock_get_time (c : Clock) (now : tm) (stime : Bool) (is_being_modified : Bool) :
    get_time_result :=
  if stime = false then
    { rc := ESP_ERR_INVALID_ARG, clock := c, stime := none, is_being_modified := none }
  else
    let ibm : Option Bool :=
      if is_being_modified then
        some (decide (c.is_set_time_mode ||| c.is_set_alarm_mode ≠ 0))
      else none
    if c.is_set_time_mode ≠ 0 then
      { rc := ESP_OK, clock := c
        stime := some ⟨c.clock_time.sec, c.clock_time.min, c.clock_time.hour⟩
        is_being_modified := ibm }
    else if c.is_set_alarm_mode ≠ 0 then
      { rc := ESP_OK, clock := c
        stime := some ⟨c.clock_alarm_time.sec, c.clock_alarm_time.min, c.clock_alarm_time.hour⟩
        is_being_modified := ibm }
    else
      let out : clock_time_t :=
        ⟨to_uint32 now.tm_sec, to_uint32 now.tm_min, to_uint32 now.tm_hour⟩
      let c1 : Clock :=
        if to_uint32 now.tm_min = c.clock_alarm_time.min ∧
            to_uint32 now.tm_hour = c.clock_alarm_time.hour ∧
            now.tm_sec < 2 then
          if c.has_alarm_tripped = 0 then
            { c with has_alarm_tripped := 1
                     trace := c.trace ++ [Event.spawn_ring_alarm_task] }
          else c
        else c
      { rc := ESP_OK, clock := c1, stime := some out, is_being_modified := ibm }

/-- Source: the static function `clock_set_time`: the wall clock is set to
the edited hour and minute, second 0 (the date is the one read by `time`). -/
def clock_set_time (c : Clock) : Clock :=
  { c with trace := c.trace ++
      [Event.settimeofday ⟨0, to_int32 c.clock_time.min, to_int32 c.clock_time.hour⟩] }

/-- Source: `clock_enter_set_time`.  The call `clock_get_time(&clock_time, NULL)`
stores its result in `clock_time` itself. -/
def clock_enter_set_time (c : Clock) (now : tm) : Clock :=
  let c := { c with trace := c.trace ++ [Event.gpio_set_level c.status_led_gpio 1] }
  let r := clock_get_time c now true false
  let c := { r.clock with clock_time := r.stime.getD r.clock.clock_time }
  let c := { c with clock_time := { c.clock_time with sec := 0 } }
  { c with is_set_time_mode := 1 }

/-- Source: `clock_exit_set_time`. -/
def clock_exit_set_time (c : Clock) : Clock :=
  let c := { c with trace := c.trace ++ [Event.gpio_set_level c.status_led_gpio 0] }
  let c := clock_set_time c
  { c with is_set_time_mode := 0 }

/-- Source: `clock_adjust_time_min`. -/
def clock_adjust_time_min (c : Clock) (delta : Int) : Clock :=
  if c.is_set_time_mode = 0 then c
  else if to_int32 (to_int32 c.clock_time.min + delta) < 0 then
    { c with clock_time := { c.clock_time with min := 59 } }
  else
    { c with clock_time :=
        { c.clock_time with min := (c.clock_time.min + to_uint32 delta) % 4294967296 % 60 } }

/-- Source: `clock_adjust_time_hour`. -/
def clock_adjust_time_hour (c : Clock) (delta : Int) : Clock :=
  if c.is_set_time_mode = 0 then c
  else if to_int32 (to_int32 c.clock_time.hour + delta) < 0 then
    { c with clock_time := { c.clock_time with hour := 23 } }
  else
    { c with clock_time :=
        { c.clock_time with hour := (c.clock_time.hour + to_uint32 delta) % 4294967296 % 24 } }

/-- Source: `clock_enter_set_alarm`. -/
def clock_enter_set_alarm (c : Clock) : Clock :=
  let c := { c with trace := c.trace ++ [Event.gpio_set_level c.status_led_gpio 1] }
  let c := { c with clock_alarm_time := ⟨0, 0, 0⟩ }
  { c with is_set_alarm_mode := 1 }

/-- Source: `clock_exit_set_alarm`. -/
def clock_exit_set_alarm (c : Clock) : Clock :=
  let c := { c with trace := c.trace ++ [Event.gpio_set_level c.status_led_gpio 0] }
  { c with is_set_alarm_mode := 0 }

/-- Source: `clock_adjust_alarm_min`. -/
def clock_adjust_alarm_min (c : Clock) (delta : Int) : Clock :=
  if c.is_set_alarm_mode = 0 then c
  else if to_int32 (to_int32 c.clock_alarm_time.min + delta) < 0 then
    { c with clock_alarm_time := { c.clock_alarm_time with min := 59 } }
  else
    { c with clock_alarm_time :=
        { c.clock_alarm_time with
            min := (c.clock_alarm_time.min + to_uint32 delta) % 4294967296 % 60 } }

/-- Source: `clock_adjust_alarm_hour`. -/
def clock_adjust_alarm_hour (c : Clock) (delta : Int) : Clock :=
  if c.is_set_alarm_mode = 0 then c
  else if to_int32 (to_int32 c.clock_alarm_time.hour + delta) < 0 then
    { c with clock_alarm_time := { c.clock_alarm_time with hour := 23 } }
  else
    { c with clock_alarm_time :=
        { c.clock_alarm_time with
            hour := (c.clock_alarm_time.hour + to_uint32 delta) % 4294967296 % 24 } }

/-- Where a `ring_alarm_task` stands: at the test of its `while` loop (the
first beep follows the test at once), before one of the six later steps of
the pattern, or deleted. -/
inductive ring_pc where
  | head
  | pause1
  | beep2
  | pause2
  | beep3
  | pause3
  | long_pause
  | deleted
deriving DecidableEq

/-- Source: `ring_alarm_task`, the three lines of one beep: status LED on,
`buzzer_beep(1000, 200)`, status LED off. -/
def ring_beep (c : Clock) : Clock :=
  { c with trace := c.trace ++
      [Event.gpio_set_level c.status_led_gpio 1, Event.buzzer_beep 1000 200,
        Event.gpio_set_level c.status_led_gpio 0] }

/-- Source: `ring_alarm_task`, one `vTaskDelay(pdMS_TO_TICKS(ms))`. -/
def ring_pause (c : Clock) (ms : Nat) : Clock :=
  { c with trace := c.trace ++ [Event.vTaskDelay ms] }

/-- Source: `ring_alarm_task`, the lines after the `while` loop. -/
def ring_alarm_task_exit (c : Clock) : Clock :=
  { c with trace := c.trace ++
      [Event.buzzer_stop, Event.gpio_set_level c.status_led_gpio 0, Event.vTaskDelete] }

/-- Source: `ring_alarm_task`, one step of the pattern.  The test of the
`while` loop is made at `head` only; the later steps of a pass read no
variable of the clock but the LED pin. -/
def ring_alarm_task_step (c : Clock) (pc : ring_pc) : Clock × ring_pc :=
  match pc with
  | .head =>
    if clock_is_alarm_ringing c ≠ 0 then (ring_beep c, .pause1)
    else (ring_alarm_task_exit c, .deleted)
  | .pause1 => (ring_pause c 100, .beep2)
  | .beep2 => (ring_beep c, .pause2)
  | .pause2 => (ring_pause c 100, .beep3)
  | .beep3 => (ring_beep c, .pause3)
  | .pause3 => (ring_pause c 100, .long_pause)
  | .long_pause => (ring_pause c 500, .head)
  | .deleted => (c, .deleted)

/-! ## main.c: latches, the time-set task and the button task -/

def STATE_NORMAL : Nat := 0

def STATE_SET_TIME : Nat := 1

def STATE_SET_ALARM : Nat := 2

def MAX_SET_TIME_STAGE : Nat := 2

def SET_HOURS : Nat := 0

def SET_MINUTES : Nat := 1

/-- The file-scope variables of main.c that the two tasks share, together
with the clock they drive.  The `int` latches are only ever assigned 0 or
or-ed with the result of a `!`. -/
structure Station where
  clock : Clock
  set_time_done : Nat
  stage : Nat
  station_state : Nat
  button_pressed : Nat
  button_up_pressed : Nat
  button_down_pressed : Nat
  switch_on : Nat
  trace : List Event
deriving DecidableEq

/-- The static initialisers of main.c over the initial clock. -/
def Station.initial : Station :=
  { clock := Clock.initial
    set_time_done := 0
    stage := SET_HOURS
    station_state := STATE_NORMAL
    button_pressed := 0
    button_up_pressed := 0
    button_down_pressed := 0
    switch_on := 0
    trace := [] }

/-- The four `gpio_get_level` readings of one pass of `button_task`
(0 = pressed / engaged, the inputs are active low). -/
structure gpio_levels where
  ctrl : Nat
  up : Nat
  down : Nat
  switch : Nat
deriving DecidableEq

/-- Source: `consume_is_btn_pressed`. -/
def consume_is_btn_pressed (s : Station) : Nat × Station :=
  (s.button_pressed, { s with button_pressed := 0 })

/-- Source: `consume_is_btn_up_pressed`. -/
def consume_is_btn_up_pressed (s : Station) : Nat × Station :=
  (s.button_up_pressed, { s with button_up_pressed := 0 })

/-- Source: `consume_is_btn_down_pressed`. -/
def consume_is_btn_down_pressed (s : Station) : Nat × Station :=
  (s.button_down_pressed, { s with button_down_pressed := 0 })

/-- Source: `get_is_switch_on`. -/
def get_is_switch_on (s : Station) : Nat := s.switch_on

/-- The four function pointers of `set_time_task` are assigned together, to
the `clock_*_time` functions or to the `clock_*_alarm` functions. -/
inductive set_target where
  | time
  | alarm
deriving DecidableEq

/-- Call through the pointer `enter_set`. -/
def enter_set (tgt : set_target) (c : Clock) (now : tm) : Clock :=
  match tgt with
  | .time => clock_enter_set_time c now
  | .alarm => clock_enter_set_alarm c

/-- Call through the pointer `exit_set`. -/
def exit_set (tgt : set_target) (c : Clock) : Clock :=
  match tgt with
  | .time => clock_exit_set_time c
  | .alarm => clock_exit_set_alarm c

/-- Call through the pointer `adjust_hour`. -/
def adjust_hour (tgt : set_target) (c : Clock) (delta : Int) : Clock :=
  match tgt with
  | .time => clock_adjust_time_hour c delta
  | .alarm => clock_adjust_alarm_hour c delta

/-- Call through the pointer `adjust_min`. -/
def adjust_min (tgt : set_target) (c : Clock) (delta : Int) : Clock :=
  match tgt with
  | .time => clock_adjust_time_min c delta
  | .alarm => clock_adjust_alarm_min c delta

/-- Where a `set_time_task` stands: not yet run, at the test of its `while`
loop with its function pointers chosen, or deleted. -/
inductive task_pc where
  | entry
  | loop (tgt : set_target)
  | deleted
deriving DecidableEq

/-- Source: `set_time_task`, from its first line to the call `enter_set()`. -/
def set_time_task_start (s : Station) (now : tm) : Station × task_pc :=
  let s := { s with stage := SET_HOURS }
  if s.station_state = STATE_SET_TIME then
    ({ s with clock := enter_set .time s.clock now }, .loop .time)
  else if s.station_state = STATE_SET_ALARM then
    ({ s with clock := enter_set .alarm s.clock now }, .loop .alarm)
  else
    ({ s with trace := s.trace ++ [Event.vTaskDelete] }, .deleted)

/-- Source: `set_time_task`, one pass of the body of the `while` loop. -/
def set_time_task_body (s : Station) (tgt : set_target) : Station :=
  let (ctrl, s) := consume_is_btn_pressed s
  let (up, s) := consume_is_btn_up_pressed s
  let (down, s) := consume_is_btn_down_pressed s
  let s :=
    if up ≠ 0 then
      if s.stage = SET_HOURS then { s with clock := adjust_hour tgt s.clock 1 }
      else if s.stage = SET_MINUTES then { s with clock := adjust_min tgt s.clock 1 }
      else s
    else if down ≠ 0 then
      if s.stage = SET_HOURS then { s with clock := adjust_hour tgt s.clock (-1) }
      else if s.stage = SET_MINUTES then { s with clock := adjust_min tgt s.clock (-1) }
      else s
    else if ctrl ≠ 0 then { s with stage := s.stage + 1 }
    else s
  let s := { s with set_time_done := if s.stage ≥ MAX_SET_TIME_STAGE then 1 else 0 }
  { s with trace := s.trace ++ [Event.vTaskDelay 50] }

/-- Source: `set_time_task`, the lines after the `while` loop. -/
def set_time_task_exit (s : Station) (tgt : set_target) : Station :=
  let s := { s with clock := exit_set tgt s.clock }
  { s with trace := s.trace ++ [Event.vTaskDelete] }

/-- One scheduling step of a `set_time_task`: its start, or the test of the
`while` loop followed by one pass of the body or by the exit. -/
def set_time_task_step (s : Station) (pc : task_pc) (now : tm) : Station × task_pc :=
  match pc with
  | .entry => set_time_task_start s now
  | .loop tgt =>
    if s.set_time_done = 0 then (set_time_task_body s tgt, .loop tgt)
    else (set_time_task_exit s tgt, .deleted)
  | .deleted => (s, .deleted)

/-- Source: `button_task`, one pass of the body of its `for (;;)` loop. -/
def button_task_tick (s : Station) (g : gpio_levels) : Station :=
  let s := { s with button_pressed := s.button_pressed ||| lnot g.ctrl }
  let s := { s with button_up_pressed := s.button_up_pressed ||| lnot g.up }
  let s := { s with button_down_pressed := s.button_down_pressed ||| lnot g.down }
  let s := { s with switch_on := lnot g.switch }
  let debounce := (s.button_pressed ||| s.button_up_pressed ||| s.button_down_pressed) % 256
  let s :=
    if s.station_state = STATE_NORMAL then
      let s :=
        if get_is_switch_on s ≠ 0 ∧ clock_is_alarm_on s.clock = 0 then
          let s := { s with set_time_done := 0 }
          let s := { s with station_state := STATE_SET_ALARM }
          let s := { s with clock := clock_enable_alarm s.clock }
          { s with trace := s.trace ++ [Event.spawn_set_time_task] }
        else if get_is_switch_on s = 0 then
          { s with clock := clock_disable_alarm s.clock }
        else s
      let (pressed, s) := consume_is_btn_pressed s
      if pressed ≠ 0 then
        let s := { s with set_time_done := 0 }
        let s := { s with station_state := STATE_SET_TIME }
        { s with trace := s.trace ++ [Event.spawn_set_time_task] }
      else s
    else if s.station_state = STATE_SET_TIME then
      if s.set_time_done ≠ 0 then { s with station_state := STATE_NORMAL } else s
    else if s.station_state = STATE_SET_ALARM then
      if s.set_time_done ≠ 0 then { s with station_state := STATE_NORMAL } else s
    else s
  { s with trace := s.trace ++ [Event.vTaskDelay (50 + 300 * debounce)] }

/-! ## Definitions used to state the properties -/

/-- The rule the specification gives for an adjust operation on a field of
value `v` with delta `d`: the maximum when the sum is negative, the sum
modulo the range otherwise. -/
def adjust_spec (v : Nat) (d : Int) (range : Nat) (max : Nat) : Nat :=
  if 0 ≤ (v : Int) + d then (((v : Int) + d) % (range : Int)).toNat else max

/-- The invariant the specification states: a tripped alarm is armed. -/
def alarm_invariant (c : Clock) : Prop := c.has_alarm_tripped ≠ 0 → c.alarm_status ≠ 0

/-- The ranges of the fields of `struct tm` that `localtime_r` produces. -/
def tm_valid (t : tm) : Prop :=
  0 ≤ t.tm_sec ∧ t.tm_sec ≤ 60 ∧ 0 ≤ t.tm_min ∧ t.tm_min ≤ 59 ∧ 0 ≤ t.tm_hour ∧ t.tm_hour ≤ 23

/-- The trip condition of the specification: the sample has the hour and the
minute of the alarm and a second below 2. -/
def trip_condition (c : Clock) (t : tm) : Prop :=
  t.tm_min = (c.clock_alarm_time.min : Int) ∧ t.tm_hour = (c.clock_alarm_time.hour : Int) ∧
    t.tm_sec < 2

instance (c : Clock) : Decidable (alarm_invariant c) := by
  unfold alarm_invariant
  infer_instance

instance (t : tm) : Decidable (tm_valid t) := by
  unfold tm_valid
  infer_instance

instance (c : Clock) (t : tm) : Decidable (trip_condition c t) := by
  unfold trip_condition
  infer_instance

/-- The poller has latched a press of the up button. -/
def latch_up (s : Station) : Station := { s with button_up_pressed := 1 }

/-- The poller has latched a press of the ctrl button. -/
def latch_ctrl (s : Station) : Station := { s with button_pressed := 1 }

/-- The alarm-setting scenario: a pass of `button_task` with levels `g1`, the
start of the time-set task, a pass with up latched, two passes with ctrl
latched, the exit of the task and a pass of `button_task` with levels `g2`. -/
def alarm_setting_run (s : Station) (g1 g2 : gpio_levels) (now : tm) : Station :=
  let s1 := button_task_tick s g1
  let r2 := set_time_task_step s1 task_pc.entry now
  let r3 := set_time_task_step (latch_up r2.1) r2.2 now
  let r4 := set_time_task_step (latch_ctrl r3.1) r3.2 now
  let r5 := set_time_task_step (latch_ctrl r4.1) r4.2 now
  let r6 := set_time_task_step r5.1 r5.2 now
  button_task_tick r6.1 g2

/-- A clock in a time edit session entered at 12:00:00. -/
def editing_time : Clock := clock_enter_set_time Clock.initial ⟨0, 0, 12⟩

/-- A clock in an alarm edit session. -/
def editing_alarm : Clock := clock_enter_set_alarm Clock.initial

/-- A clock with the alarm armed and set to 07:00. -/
def armed_at_seven : Clock :=
  { Clock.initial with clock_alarm_time := ⟨0, 0, 7⟩, alarm_status := 1 }

/-- A station in mode Normal on which a press of the up button was latched
while the switch was disengaged. -/
def normal_up_latched : Station := button_task_tick Station.initial ⟨1, 0, 1, 1⟩

/-- The task `ring_alarm_task` run for `n` steps with no other task writing
the clock in between. -/
def ring_run : Nat → Clock × ring_pc → Clock × ring_pc
  | 0, x => x
  | n + 1, x => ring_run n (ring_alarm_task_step x.1 x.2)

/-- Number of calls `buzzer_beep(1000, 200)` in a trace. -/
def beeps (tr : List Event) : Nat := tr.count (Event.buzzer_beep 1000 200)

/-- Steps from a position of the pattern to the deletion of the task when the
next test of the loop fails. -/
def ring_steps_left : ring_pc → Nat
  | .head => 1
  | .pause1 => 7
  | .beep2 => 6
  | .pause2 => 5
  | .beep3 => 4
  | .pause3 => 3
  | .long_pause => 2
  | .deleted => 0

/-- Beeps that remain in the pass of the pattern from a position after the
first beep. -/
def ring_beeps_left : ring_pc → Nat
  | .head => 0
  | .pause1 => 2
  | .beep2 => 2
  | .pause2 => 1
  | .beep3 => 1
  | .pause3 => 0
  | .long_pause => 0
  | .deleted => 0

/-- A clock whose alarm, armed and set to 07:00, has just tripped. -/
def ringing_at_seven : Clock := (clock_get_time armed_at_seven ⟨0, 0, 7⟩ true true).clock

/-- A station in mode `STATE_SET_ALARM` whose alarm is ringing, with a
time-set task alive and an up press latched. -/
def setting_alarm_ringing : Station :=
  { Station.initial with
      clock := ringing_at_seven, station_state := STATE_SET_ALARM, button_up_pressed := 1 }

/-- The time of day a time-set task edits: the time shadow or the alarm
time. -/
def edited_time (tgt : set_target) (c : Clock) : clock_time_t :=
  match tgt with
  | .time => c.clock_time
  | .alarm => c.clock_alarm_time

/-- The clock with the edited time of day replaced by `v` and nothing else
changed. -/
def set_edited_time (tgt : set_target) (c : Clock) (v : clock_time_t) : Clock :=
  match tgt with
  | .time => { c with clock_time := v }
  | .alarm => { c with clock_alarm_time := v }

/-- The edit session of the target is active. -/
def session_active (tgt : set_target) (c : Clock) : Prop :=
  match tgt with
  | .time => c.is_set_time_mode ≠ 0
  | .alarm => c.is_set_alarm_mode ≠ 0

instance (tgt : set_target) (c : Clock) : Decidable (session_active tgt c) := by
  cases tgt <;> unfold session_active <;> infer_instance

/-- A station whose time-set task edits the time, entered at 23:59:30. -/
def setting_time_at_2359 : Station :=
  { Station.initial with
      clock := clock_enter_set_time Clock.initial ⟨30, 59, 23⟩
      station_state := STATE_SET_TIME }

/-- A station whose time-set task edits the alarm, just entered (00:00). -/
def setting_alarm_at_0000 : Station :=
  { Station.initial with
      clock := clock_enter_set_alarm Clock.initial
      station_state := STATE_SET_ALARM }

/-! ## Arithmetic of the adjust operations -/

/-- The sign test `((int32_t) v + delta) < 0` is exact as long as the sum
fits in an `int32_t`. -/
theorem int32_sum_neg_iff (v : Nat) (d : Int) (hv : v < 2147483648)
    (hd : -2147483648 ≤ d) (hs : (v : Int) + d < 2147483648) :
    to_int32 (to_int32 v + d) < 0 ↔ (v : Int) + d < 0 := by
  unfold to_int32
  omega

/-- The unsigned sum `v + delta` is the mathematical sum when that sum is not
negative and fits in 32 bits. -/
theorem uint32_sum_eq (v : Nat) (d : Int) (hd : -2147483648 ≤ d)
    (h0 : 0 ≤ (v : Int) + d) (hs : (v : Int) + d < 4294967296) :
    (v + to_uint32 d) % 4294967296 = ((v : Int) + d).toNat := by
  unfold to_uint32
  omega

/-- The new field value computed by the four adjust operations agrees with
`adjust_spec` whenever the sum fits in an `int32_t`; `range` is 60 or 24. -/
theorem adjust_value_eq (v : Nat) (d : Int) (range max : Nat) (hr : 0 < range)
    (hv : v < 2147483648) (hd : -2147483648 ≤ d) (hs : (v : Int) + d < 2147483648) :
    (if to_int32 (to_int32 v + d) < 0 then max
      else (v + to_uint32 d) % 4294967296 % range) = adjust_spec v d range max := by
  unfold adjust_spec
  by_cases h : (v : Int) + d < 0
  · rw [if_pos ((int32_sum_neg_iff v d hv hd hs).2 h), if_neg (by omega)]
  · rw [if_neg (fun hn => h ((int32_sum_neg_iff v d hv hd hs).1 hn)), if_pos (by omega),
      uint32_sum_eq v d hd (by omega) (by omega)]
    have h0 : 0 ≤ (v : Int) + d := by omega
    have hr0 : (0 : Int) ≤ (range : Int) := by omega
    have hm : 0 ≤ ((v : Int) + d) % (range : Int) := Int.emod_nonneg _ (by omega)
    apply Int.ofNat.inj
    simp only [Int.ofNat_eq_coe]
    rw [Int.natCast_mod, Int.toNat_of_nonneg h0, Int.toNat_of_nonneg hm]

/-- Under an active time session `clock_adjust_time_min` follows the rule for
every delta whose sum with the minute fits in an `int32_t`. -/
theorem clock_adjust_time_min_eq (c : Clock) (d : Int) (hm : c.is_set_time_mode ≠ 0)
    (hv : c.clock_time.min < 2147483648) (hd : -2147483648 ≤ d)
    (hs : (c.clock_time.min : Int) + d < 2147483648) :
    clock_adjust_time_min c d =
      { c with clock_time :=
          { c.clock_time with min := adjust_spec c.clock_time.min d 60 59 } } := by
  unfold clock_adjust_time_min
  rw [if_neg hm, ← adjust_value_eq c.clock_time.min d 60 59 (by decide) hv hd hs]
  split_ifs <;> rfl

/-- Under an active time session `clock_adjust_time_hour` follows the rule for
every delta whose sum with the hour fits in an `int32_t`. -/
theorem clock_adjust_time_hour_eq (c : Clock) (d : Int) (hm : c.is_set_time_mode ≠ 0)
    (hv : c.clock_time.hour < 2147483648) (hd : -2147483648 ≤ d)
    (hs : (c.clock_time.hour : Int) + d < 2147483648) :
    clock_adjust_time_hour c d =
      { c with clock_time :=
          { c.clock_time with hour := adjust_spec c.clock_time.hour d 24 23 } } := by
  unfold clock_adjust_time_hour
  rw [if_neg hm, ← adjust_value_eq c.clock_time.hour d 24 23 (by decide) hv hd hs]
  split_ifs <;> rfl

/-- Under an active alarm session `clock_adjust_alarm_min` follows the rule
for every delta whose sum with the minute fits in an `int32_t`. -/
theorem clock_adjust_alarm_min_eq (c : Clock) (d : Int) (hm : c.is_set_alarm_mode ≠ 0)
    (hv : c.clock_alarm_time.min < 2147483648) (hd : -2147483648 ≤ d)
    (hs : (c.clock_alarm_time.min : Int) + d < 2147483648) :
    clock_adjust_alarm_min c d =
      { c with clock_alarm_time :=
          { c.clock_alarm_time with min := adjust_spec c.clock_alarm_time.min d 60 59 } } := by
  unfold clock_adjust_alarm_min
  rw [if_neg hm, ← adjust_value_eq c.clock_alarm_time.min d 60 59 (by decide) hv hd hs]
  split_ifs <;> rfl

/-- Under an active alarm session `clock_adjust_alarm_hour` follows the rule
for every delta whose sum with the hour fits in an `int32_t`. -/
theorem clock_adjust_alarm_hour_eq (c : Clock) (d : Int) (hm : c.is_set_alarm_mode ≠ 0)
    (hv : c.clock_alarm_time.hour < 2147483648) (hd : -2147483648 ≤ d)
    (hs : (c.clock_alarm_time.hour : Int) + d < 2147483648) :
    clock_adjust_alarm_hour c d =
      { c with clock_alarm_time :=
          { c.clock_alarm_time with hour := adjust_spec c.clock_alarm_time.hour d 24 23 } } := by
  unfold clock_adjust_alarm_hour
  rw [if_neg hm, ← adjust_value_eq c.clock_alarm_time.hour d 24 23 (by decide) hv hd hs]
  split_ifs <;> rfl

/-! ## C1: the adjust rule for deltas -1 and +1 -/

/-- Claim C1: for a delta of -1 or +1 and an in-range field, each of the four
adjust operations, called while its own edit session is active, replaces the
field by the sum modulo the range (60 or 24) when the sum is not negative and
by the maximum (59 or 23) otherwise, and changes nothing else. -/
theorem adjust_unit_delta (c : Clock) (d : Int) (hd : d = -1 ∨ d = 1) :
    (c.is_set_time_mode ≠ 0 → c.clock_time.min < 60 →
      clock_adjust_time_min c d =
        { c with clock_time :=
            { c.clock_time with min := adjust_spec c.clock_time.min d 60 59 } }) ∧
    (c.is_set_time_mode ≠ 0 → c.clock_time.hour < 24 →
      clock_adjust_time_hour c d =
        { c with clock_time :=
            { c.clock_time with hour := adjust_spec c.clock_time.hour d 24 23 } }) ∧
    (c.is_set_alarm_mode ≠ 0 → c.clock_alarm_time.min < 60 →
      clock_adjust_alarm_min c d =
        { c with clock_alarm_time :=
            { c.clock_alarm_time with min := adjust_spec c.clock_alarm_time.min d 60 59 } }) ∧
    (c.is_set_alarm_mode ≠ 0 → c.clock_alarm_time.hour < 24 →
      clock_adjust_alarm_hour c d =
        { c with clock_alarm_time :=
            { c.clock_alarm_time with hour := adjust_spec c.clock_alarm_time.hour d 24 23 } }) := by
  have hd1 : -2147483648 ≤ d := by omega
  refine ⟨fun hm hv => ?_, fun hm hv => ?_, fun hm hv => ?_, fun hm hv => ?_⟩
  · exact clock_adjust_time_min_eq c d hm (by omega) hd1 (by omega)
  · exact clock_adjust_time_hour_eq c d hm (by omega) hd1 (by omega)
  · exact clock_adjust_alarm_min_eq c d hm (by omega) hd1 (by omega)
  · exact clock_adjust_alarm_hour_eq c d hm (by omega) hd1 (by omega)

/-- The rule of C1 at 12:00 under a time session and at 00:00 under an alarm
session: minute -1 gives 59, hour +1 gives 13, hour -1 gives 23. -/
theorem adjust_unit_delta_witness :
    (editing_time.is_set_time_mode ≠ 0 ∧ editing_time.clock_time = ⟨0, 0, 12⟩) ∧
    (editing_alarm.is_set_alarm_mode ≠ 0 ∧ editing_alarm.clock_alarm_time = ⟨0, 0, 0⟩) ∧
    (clock_adjust_time_min editing_time (-1)).clock_time = ⟨0, 59, 12⟩ ∧
    (clock_adjust_time_hour editing_time 1).clock_time = ⟨0, 0, 13⟩ ∧
    (clock_adjust_alarm_min editing_alarm 1).clock_alarm_time = ⟨0, 1, 0⟩ ∧
    (clock_adjust_alarm_hour editing_alarm (-1)).clock_alarm_time = ⟨0, 0, 23⟩ := by
  refine ⟨by decide, by decide, ?_, ?_, ?_, ?_⟩
  · rw [(adjust_unit_delta editing_time (-1) (Or.inl rfl)).1 (by decide) (by decide)]
    decide
  · rw [(adjust_unit_delta editing_time 1 (Or.inr rfl)).2.1 (by decide) (by decide)]
    decide
  · rw [(adjust_unit_delta editing_alarm 1 (Or.inr rfl)).2.2.1 (by decide) (by decide)]
    decide
  · rw [(adjust_unit_delta editing_alarm (-1) (Or.inl rfl)).2.2.2 (by decide) (by decide)]
    decide

/-! ## C2: a tripped alarm is armed -/

/-- The function `clock_get_time` never writes `alarm_status`. -/
theorem clock_get_time_alarm_status (c : Clock) (t : tm) (st ibm : Bool) :
    (clock_get_time c t st ibm).clock.alarm_status = c.alarm_status := by
  unfold clock_get_time
  split_ifs <;> rfl

/-- The function `clock_enter_set_time` never writes `alarm_status`. -/
theorem clock_enter_set_time_alarm_status (c : Clock) (t : tm) :
    (clock_enter_set_time c t).alarm_status = c.alarm_status := by
  unfold clock_enter_set_time
  exact clock_get_time_alarm_status _ t true false

/-- The adjust operations write neither alarm flag. -/
theorem adjust_alarm_flags (c : Clock) (d : Int) :
    ((clock_adjust_time_min c d).alarm_status = c.alarm_status ∧
      (clock_adjust_time_min c d).has_alarm_tripped = c.has_alarm_tripped) ∧
    ((clock_adjust_time_hour c d).alarm_status = c.alarm_status ∧
      (clock_adjust_time_hour c d).has_alarm_tripped = c.has_alarm_tripped) ∧
    ((clock_adjust_alarm_min c d).alarm_status = c.alarm_status ∧
      (clock_adjust_alarm_min c d).has_alarm_tripped = c.has_alarm_tripped) ∧
    ((clock_adjust_alarm_hour c d).alarm_status = c.alarm_status ∧
      (clock_adjust_alarm_hour c d).has_alarm_tripped = c.has_alarm_tripped) := by
  unfold clock_adjust_time_min clock_adjust_time_hour clock_adjust_alarm_min
    clock_adjust_alarm_hour
  refine ⟨?_, ?_, ?_, ?_⟩ <;> split_ifs <;> exact ⟨rfl, rfl⟩

/-- Claim C2 fails as stated: from the initial state (alarm unarmed, alarm
time 00:00) a call of `clock_get_time` with the sample 00:00:00 sets
`has_alarm_tripped` to 1 while `alarm_status` is 0, and so does
`clock_enter_set_time`, which calls it. -/
theorem trip_while_unarmed :
    alarm_invariant Clock.initial ∧
    (clock_get_time Clock.initial ⟨0, 0, 0⟩ true true).clock.has_alarm_tripped = 1 ∧
    (clock_get_time Clock.initial ⟨0, 0, 0⟩ true true).clock.alarm_status = 0 ∧
    ¬ alarm_invariant (clock_get_time Clock.initial ⟨0, 0, 0⟩ true true).clock ∧
    ¬ alarm_invariant (clock_enter_set_time Clock.initial ⟨0, 0, 0⟩) := by
  decide

/-- Claim C2, amended: the invariant holds in the initial state and is
preserved by enable, disable, `clock_exit_set_time`, `clock_enter_set_alarm`,
`clock_exit_set_alarm` and the four adjust operations; `clock_get_time` and
`clock_enter_set_time` preserve it when the alarm is armed or the call does
not change `has_alarm_tripped`; and `clock_is_alarm_ringing` is never 1 while
`alarm_status` is 0. -/
theorem alarm_invariant_preserved (c : Clock) (d : Int) (t : tm) (st ibm : Bool)
    (h : alarm_invariant c) :
    alarm_invariant Clock.initial ∧
    alarm_invariant (clock_enable_alarm c) ∧
    alarm_invariant (clock_disable_alarm c) ∧
    alarm_invariant (clock_exit_set_time c) ∧
    alarm_invariant (clock_enter_set_alarm c) ∧
    alarm_invariant (clock_exit_set_alarm c) ∧
    alarm_invariant (clock_adjust_time_min c d) ∧
    alarm_invariant (clock_adjust_time_hour c d) ∧
    alarm_invariant (clock_adjust_alarm_min c d) ∧
    alarm_invariant (clock_adjust_alarm_hour c d) ∧
    (c.alarm_status ≠ 0 ∨
        (clock_get_time c t st ibm).clock.has_alarm_tripped = c.has_alarm_tripped →
      alarm_invariant (clock_get_time c t st ibm).clock) ∧
    (c.alarm_status ≠ 0 ∨ (clock_enter_set_time c t).has_alarm_tripped = c.has_alarm_tripped →
      alarm_invariant (clock_enter_set_time c t)) ∧
    (clock_is_alarm_ringing c ≠ 0 → c.alarm_status ≠ 0) := by
  obtain ⟨a1, a2, a3, a4⟩ := adjust_alarm_flags c d
  refine ⟨by decide, ?_, ?_, h, h, h, ?_, ?_, ?_, ?_, ?_, ?_, ?_⟩
  · intro _; exact Nat.one_ne_zero
  · intro hn; exact absurd rfl hn
  · intro hn; rw [a1.1]; rw [a1.2] at hn; exact h hn
  · intro hn; rw [a2.1]; rw [a2.2] at hn; exact h hn
  · intro hn; rw [a3.1]; rw [a3.2] at hn; exact h hn
  · intro hn; rw [a4.1]; rw [a4.2] at hn; exact h hn
  · intro hc hn
    rw [clock_get_time_alarm_status]
    rcases hc with ha | he
    · exact ha
    · rw [he] at hn; exact h hn
  · intro hc hn
    rw [clock_enter_set_time_alarm_status]
    rcases hc with ha | he
    · exact ha
    · rw [he] at hn; exact h hn
  · intro hr
    unfold clock_is_alarm_ringing at hr
    by_contra h0
    simp [h0] at hr

/-- The amended C2 on the clock armed at 07:00: a matching sample trips the
alarm and the invariant still holds, as it does after a disarm. -/
theorem alarm_invariant_preserved_witness :
    alarm_invariant armed_at_seven ∧
    armed_at_seven.alarm_status ≠ 0 ∧
    (clock_get_time armed_at_seven ⟨0, 0, 7⟩ true true).clock.has_alarm_tripped = 1 ∧
    alarm_invariant (clock_get_time armed_at_seven ⟨0, 0, 7⟩ true true).clock ∧
    alarm_invariant (clock_disable_alarm armed_at_seven) :=
  have h := alarm_invariant_preserved armed_at_seven 1 ⟨0, 0, 7⟩ true true (by decide)
  ⟨by decide, by decide, by decide, h.2.2.2.2.2.2.2.2.2.2.1 (Or.inl (by decide)), h.2.2.1⟩

/-! ## C3 and C4: the alarm trip detector -/

/-- On a sample produced by `localtime_r` the conversion to `unsigned int`
changes nothing. -/
theorem to_uint32_of_valid (x : Int) (h0 : 0 ≤ x) (h1 : x ≤ 60) (n : Nat) :
    to_uint32 x = n ↔ x = (n : Int) := by
  unfold to_uint32
  omega

/-- On a valid sample the test of `clock_get_time` is the trip condition. -/
theorem trip_test_iff (c : Clock) (t : tm) (hv : tm_valid t) :
    (to_uint32 t.tm_min = c.clock_alarm_time.min ∧
      to_uint32 t.tm_hour = c.clock_alarm_time.hour ∧ t.tm_sec < 2) ↔ trip_condition c t := by
  obtain ⟨_, _, h3, h4, h5, h6⟩ := hv
  unfold trip_condition
  rw [to_uint32_of_valid _ h3 (by omega), to_uint32_of_valid _ h5 (by omega)]

/-- The clock after `clock_get_time` when no edit session is active. -/
theorem clock_get_time_idle (c : Clock) (t : tm) (ibm : Bool) (hv : tm_valid t)
    (ht : c.is_set_time_mode = 0) (ha : c.is_set_alarm_mode = 0) :
    (clock_get_time c t true ibm).clock =
      if trip_condition c t then
        if c.has_alarm_tripped = 0 then
          { c with has_alarm_tripped := 1, trace := c.trace ++ [Event.spawn_ring_alarm_task] }
        else c
      else c := by
  have h := trip_test_iff c t hv
  unfold clock_get_time
  simp only [ht, ha, ne_eq, not_true_eq_false, if_false, Bool.true_eq_false]
  by_cases hc : trip_condition c t
  · rw [if_pos (h.2 hc), if_pos hc]
  · rw [if_neg (fun x => hc (h.1 x)), if_neg hc]

/-- Claim C3: with no edit session active and `has_alarm_tripped` clear, two
successive calls of `clock_get_time` (non-NULL `stime`) whose samples both
satisfy the trip condition start the ring task once: the first call sets `has_alarm_tripped`
and appends one `xTaskCreate(ring_alarm_task)` to the trace, the second call
leaves the clock (flag and trace) as the first left it. -/
theorem trip_fires_once (c : Clock) (t1 t2 : tm) (ibm1 ibm2 : Bool)
    (hv1 : tm_valid t1) (hv2 : tm_valid t2)
    (ht : c.is_set_time_mode = 0) (ha : c.is_set_alarm_mode = 0)
    (h0 : c.has_alarm_tripped = 0)
    (h1 : trip_condition c t1) (h2 : trip_condition c t2) :
    (clock_get_time c t1 true ibm1).clock =
        { c with has_alarm_tripped := 1,
                 trace := c.trace ++ [Event.spawn_ring_alarm_task] } ∧
      (clock_get_time (clock_get_time c t1 true ibm1).clock t2 true ibm2).clock =
        (clock_get_time c t1 true ibm1).clock := by
  have e1 : (clock_get_time c t1 true ibm1).clock =
      { c with has_alarm_tripped := 1,
               trace := c.trace ++ [Event.spawn_ring_alarm_task] } := by
    rw [clock_get_time_idle c t1 ibm1 hv1 ht ha, if_pos h1, if_pos h0]
  refine ⟨e1, ?_⟩
  have e2 := clock_get_time_idle
    { c with has_alarm_tripped := 1, trace := c.trace ++ [Event.spawn_ring_alarm_task] }
    t2 ibm2 hv2 ht ha
  have h2t : trip_condition
    { c with has_alarm_tripped := 1, trace := c.trace ++ [Event.spawn_ring_alarm_task] } t2 := h2
  rw [e1, e2, if_pos h2t, if_neg (by simp)]

/-- Claim C3 on the samples 07:00:00 and 07:00:01 with the alarm at 07:00:
one ring task after the two calls. -/
theorem trip_fires_once_witness :
    (clock_get_time (clock_get_time armed_at_seven ⟨0, 0, 7⟩ true true).clock
        ⟨1, 0, 7⟩ true true).clock.trace = [Event.spawn_ring_alarm_task] ∧
    (clock_get_time (clock_get_time armed_at_seven ⟨0, 0, 7⟩ true true).clock
        ⟨1, 0, 7⟩ true true).clock.has_alarm_tripped = 1 := by
  have h := trip_fires_once armed_at_seven ⟨0, 0, 7⟩ ⟨1, 0, 7⟩ true true
    (by decide) (by decide) (by decide) (by decide) (by decide) (by decide) (by decide)
  rw [h.2, h.1]
  exact ⟨rfl, rfl⟩

/-- Claim C4: with no edit session active and `has_alarm_tripped` clear,
`clock_get_time` (non-NULL `stime`) sets `has_alarm_tripped` exactly when the sample has the
minute and hour of the alarm and a second below 2; it then appends one
`xTaskCreate(ring_alarm_task)` to the trace, otherwise it leaves the clock
unchanged; the second field of the alarm time has no influence. -/
theorem trip_iff_condition (c : Clock) (t : tm) (ibm : Bool) (hv : tm_valid t)
    (ht : c.is_set_time_mode = 0) (ha : c.is_set_alarm_mode = 0)
    (h0 : c.has_alarm_tripped = 0) :
    ((clock_get_time c t true ibm).clock.has_alarm_tripped ≠ 0 ↔ trip_condition c t) ∧
    (trip_condition c t →
      (clock_get_time c t true ibm).clock =
        { c with has_alarm_tripped := 1,
                 trace := c.trace ++ [Event.spawn_ring_alarm_task] }) ∧
    (¬ trip_condition c t → (clock_get_time c t true ibm).clock = c) ∧
    (∀ x : Nat,
      (clock_get_time { c with clock_alarm_time := { c.clock_alarm_time with sec := x } }
          t true ibm).clock.has_alarm_tripped =
        (clock_get_time c t true ibm).clock.has_alarm_tripped) := by
  have e := clock_get_time_idle c t ibm hv ht ha
  refine ⟨?_, ?_, ?_, ?_⟩
  · rw [e]
    by_cases hc : trip_condition c t
    · simp [hc, h0]
    · simp [hc, h0]
  · intro hc
    rw [e, if_pos hc, if_pos h0]
  · intro hc
    rw [e, if_neg hc]
  · intro x
    have e2 := clock_get_time_idle
      { c with clock_alarm_time := { c.clock_alarm_time with sec := x } } t ibm hv ht ha
    rw [e, e2]
    by_cases hc : trip_condition c t
    · have hc2 : trip_condition
          { c with clock_alarm_time := { c.clock_alarm_time with sec := x } } t := hc
      rw [if_pos hc, if_pos hc2, if_pos h0, if_pos h0]
    · have hc2 : ¬ trip_condition
          { c with clock_alarm_time := { c.clock_alarm_time with sec := x } } t := hc
      rw [if_neg hc, if_neg hc2]

/-- Claim C4 with the alarm at 07:00: the sample 07:00:01 trips, the sample
07:00:02 does not. -/
theorem trip_iff_condition_witness :
    (trip_condition armed_at_seven ⟨1, 0, 7⟩ ∧
      (clock_get_time armed_at_seven ⟨1, 0, 7⟩ true true).clock.has_alarm_tripped ≠ 0) ∧
    (¬ trip_condition armed_at_seven ⟨2, 0, 7⟩ ∧
      (clock_get_time armed_at_seven ⟨2, 0, 7⟩ true true).clock = armed_at_seven) :=
  ⟨⟨by decide,
    (trip_iff_condition armed_at_seven ⟨1, 0, 7⟩ true (by decide) (by decide) (by decide)
      (by decide)).1.2 (by decide)⟩,
   ⟨by decide,
    (trip_iff_condition armed_at_seven ⟨2, 0, 7⟩ true (by decide) (by decide) (by decide)
      (by decide)).2.2.1 (by decide)⟩⟩

/-! ## C5: entering an edit session while one is active -/

/-- Claim C5 fails as stated: after `clock_enter_set_time` the time flag is
set, and a following `clock_enter_set_alarm` sets the alarm flag as well, so
both flags are set; it also resets the alarm time (07:00 before, 00:00
after). -/
theorem enter_while_editing_sets_both_flags :
    (clock_enter_set_time armed_at_seven ⟨0, 30, 12⟩).is_set_time_mode = 1 ∧
    (clock_enter_set_time armed_at_seven ⟨0, 30, 12⟩).is_set_alarm_mode = 0 ∧
    (clock_enter_set_time armed_at_seven ⟨0, 30, 12⟩).clock_alarm_time = ⟨0, 0, 7⟩ ∧
    (clock_enter_set_alarm
      (clock_enter_set_time armed_at_seven ⟨0, 30, 12⟩)).is_set_time_mode = 1 ∧
    (clock_enter_set_alarm
      (clock_enter_set_time armed_at_seven ⟨0, 30, 12⟩)).is_set_alarm_mode = 1 ∧
    (clock_enter_set_alarm
      (clock_enter_set_time armed_at_seven ⟨0, 30, 12⟩)).clock_alarm_time = ⟨0, 0, 0⟩ := by
  decide

/-- Claim C5, amended: the two enter operations have no guard.  Called while
a session is active, `clock_enter_set_alarm` resets the alarm time to
00:00:00, sets `is_set_alarm_mode` and changes nothing else of the clock
variables; `clock_enter_set_time` copies the value being edited (the time
shadow under a time session, else the alarm time) into the time shadow with
second 0, sets `is_set_time_mode` and changes nothing else; each turns the
status LED on.  The flag of the session that was active stays set. -/
theorem enter_while_editing (c : Clock) (t : tm)
    (h : c.is_set_time_mode ≠ 0 ∨ c.is_set_alarm_mode ≠ 0) :
    clock_enter_set_alarm c =
      { c with clock_alarm_time := ⟨0, 0, 0⟩, is_set_alarm_mode := 1,
               trace := c.trace ++ [Event.gpio_set_level c.status_led_gpio 1] } ∧
    clock_enter_set_time c t =
      { c with
          clock_time :=
            if c.is_set_time_mode ≠ 0 then ⟨0, c.clock_time.min, c.clock_time.hour⟩
            else ⟨0, c.clock_alarm_time.min, c.clock_alarm_time.hour⟩,
          is_set_time_mode := 1,
          trace := c.trace ++ [Event.gpio_set_level c.status_led_gpio 1] } ∧
    (c.is_set_time_mode ≠ 0 →
      (clock_enter_set_alarm c).is_set_time_mode ≠ 0 ∧
        (clock_enter_set_alarm c).is_set_alarm_mode ≠ 0) ∧
    (c.is_set_alarm_mode ≠ 0 →
      (clock_enter_set_time c t).is_set_time_mode ≠ 0 ∧
        (clock_enter_set_time c t).is_set_alarm_mode ≠ 0) := by
  have e : clock_enter_set_time c t =
      { c with
          clock_time :=
            if c.is_set_time_mode ≠ 0 then ⟨0, c.clock_time.min, c.clock_time.hour⟩
            else ⟨0, c.clock_alarm_time.min, c.clock_alarm_time.hour⟩,
          is_set_time_mode := 1,
          trace := c.trace ++ [Event.gpio_set_level c.status_led_gpio 1] } := by
    unfold clock_enter_set_time clock_get_time
    by_cases ht : c.is_set_time_mode = 0
    · have ha : c.is_set_alarm_mode ≠ 0 := by
        rcases h with h | h
        · exact absurd ht h
        · exact h
      simp [ht, ha]
    · simp [ht]
  refine ⟨rfl, e, fun ht => ⟨ht, Nat.one_ne_zero⟩, fun ha => ?_⟩
  rw [e]
  exact ⟨Nat.one_ne_zero, ha⟩

/-- The amended C5 on a clock that is editing the time at 12:00. -/
theorem enter_while_editing_witness :
    (editing_time.is_set_time_mode ≠ 0 ∨ editing_time.is_set_alarm_mode ≠ 0) ∧
    (clock_enter_set_alarm editing_time).is_set_time_mode ≠ 0 ∧
    (clock_enter_set_alarm editing_time).is_set_alarm_mode ≠ 0 :=
  ⟨Or.inl (by decide),
    (enter_while_editing editing_time ⟨0, 0, 0⟩ (Or.inl (by decide))).2.2.1 (by decide)⟩

/-! ## C6: arming the alarm from mode Normal -/

/-- In mode Normal with the switch engaged, the alarm unarmed and no ctrl press
latched or sampled, one pass of `button_task` arms the alarm, enters
`STATE_SET_ALARM` and creates one task. -/
theorem button_task_tick_arm (s : Station) (g : gpio_levels)
    (hn : s.station_state = STATE_NORMAL) (hsw : g.switch = 0)
    (ha : s.clock.alarm_status = 0) (hb : s.button_pressed = 0) (hc : g.ctrl ≠ 0) :
    button_task_tick s g =
      { s with
          button_up_pressed := s.button_up_pressed ||| lnot g.up,
          button_down_pressed := s.button_down_pressed ||| lnot g.down,
          switch_on := 1,
          set_time_done := 0,
          station_state := STATE_SET_ALARM,
          clock := clock_enable_alarm s.clock,
          trace := s.trace ++ [Event.spawn_set_time_task] ++
            [Event.vTaskDelay (50 + 300 *
              ((s.button_up_pressed ||| lnot g.up ||| (s.button_down_pressed ||| lnot g.down))
                % 256))] } := by
  unfold button_task_tick
  simp [hn, hsw, ha, hb, hc, lnot, get_is_switch_on, clock_is_alarm_on,
    consume_is_btn_pressed]

/-- Claim C6 at the failing input: in mode Normal with the alarm unarmed, a
pass of `button_task` that samples the switch engaged and the ctrl button
pressed arms the alarm, creates two time-set tasks and ends in
`STATE_SET_TIME`, so a task started afterwards targets the time. -/
theorem switch_and_ctrl_spawn_two_tasks :
    Station.initial.station_state = STATE_NORMAL ∧
    Station.initial.clock.alarm_status = 0 ∧
    (button_task_tick Station.initial ⟨0, 1, 1, 0⟩).station_state = STATE_SET_TIME ∧
    (button_task_tick Station.initial ⟨0, 1, 1, 0⟩).clock.alarm_status = 1 ∧
    (button_task_tick Station.initial ⟨0, 1, 1, 0⟩).trace =
      [Event.spawn_set_time_task, Event.spawn_set_time_task, Event.vTaskDelay 350] ∧
    (set_time_task_step (button_task_tick Station.initial ⟨0, 1, 1, 0⟩) task_pc.entry
      ⟨0, 30, 12⟩).2 = task_pc.loop set_target.time := by
  decide

/-! ## C7: setting the alarm end to end -/

/-- Claim C7: from mode Normal with the alarm unarmed and the latches clear,
whatever the previous alarm time, the scenario (pass of `button_task` with the
switch engaged; start of the time-set task; pass with up latched; pass with
ctrl latched; pass with ctrl latched; exit of the task; pass of `button_task`)
goes through `STATE_SET_ALARM` with the alarm armed and the alarm time
00:00:00, then alarm hour 1, then stage `SET_MINUTES`, and ends with the alarm
session closed, the alarm time 01:00 and mode Normal; the result is the same
when the last pass of `button_task` runs before the exit of the task. -/
theorem alarm_setting_end_to_end (s : Station) (g1 g2 : gpio_levels) (now : tm)
    (hn : s.station_state = STATE_NORMAL) (ha : s.clock.alarm_status = 0)
    (hb : s.button_pressed = 0) (hu : s.button_up_pressed = 0)
    (hd : s.button_down_pressed = 0)
    (hsw : g1.switch = 0) (hgc : g1.ctrl ≠ 0) (hgu : g1.up ≠ 0) (hgd : g1.down ≠ 0) :
    let s1 := button_task_tick s g1
    let r2 := set_time_task_step s1 task_pc.entry now
    let r3 := set_time_task_step (latch_up r2.1) r2.2 now
    let r4 := set_time_task_step (latch_ctrl r3.1) r3.2 now
    let r5 := set_time_task_step (latch_ctrl r4.1) r4.2 now
    let r6 := set_time_task_step r5.1 r5.2 now
    let s7 := button_task_tick r6.1 g2
    let r7 := set_time_task_step (button_task_tick r5.1 g2) r5.2 now
    (s1.station_state = STATE_SET_ALARM ∧ s1.clock.alarm_status = 1 ∧
      s1.trace = s.trace ++ [Event.spawn_set_time_task, Event.vTaskDelay 50]) ∧
    (r2.2 = task_pc.loop set_target.alarm ∧ r2.1.station_state = STATE_SET_ALARM ∧
      r2.1.clock.alarm_status = 1 ∧ r2.1.clock.is_set_alarm_mode = 1 ∧
      r2.1.clock.clock_alarm_time = ⟨0, 0, 0⟩ ∧ r2.1.stage = SET_HOURS) ∧
    (r3.1.clock.clock_alarm_time = ⟨0, 0, 1⟩ ∧ r3.1.stage = SET_HOURS ∧
      r3.1.set_time_done = 0) ∧
    (r4.1.clock.clock_alarm_time = ⟨0, 0, 1⟩ ∧ r4.1.stage = SET_MINUTES ∧
      r4.1.set_time_done = 0 ∧ r4.2 = task_pc.loop set_target.alarm) ∧
    (r5.1.clock.clock_alarm_time = ⟨0, 0, 1⟩ ∧ r5.1.set_time_done = 1) ∧
    (r6.2 = task_pc.deleted ∧ r6.1.clock.is_set_alarm_mode = 0 ∧
      r6.1.clock.clock_alarm_time = ⟨0, 0, 1⟩) ∧
    (s7.station_state = STATE_NORMAL ∧ s7.clock.is_set_alarm_mode = 0 ∧
      s7.clock.clock_alarm_time = ⟨0, 0, 1⟩ ∧ s7.clock.alarm_status = 1) ∧
    (r7.2 = task_pc.deleted ∧ r7.1.station_state = STATE_NORMAL ∧
      r7.1.clock.is_set_alarm_mode = 0 ∧ r7.1.clock.clock_alarm_time = ⟨0, 0, 1⟩ ∧
      r7.1.clock.alarm_status = 1) := by
  intro s1 r2 r3 r4 r5 r6 s7 r7
  have e1 : s1 = { s with
      switch_on := 1, set_time_done := 0, station_state := STATE_SET_ALARM,
      clock := clock_enable_alarm s.clock,
      trace := s.trace ++ [Event.spawn_set_time_task, Event.vTaskDelay 50] } := by
    show button_task_tick s g1 = _
    unfold button_task_tick
    simp [hn, hsw, ha, hb, hu, hd, hgc, hgu, hgd, lnot, get_is_switch_on, clock_is_alarm_on,
      consume_is_btn_pressed]
  have e2 : r2 = ({ s with
      switch_on := 1, set_time_done := 0, station_state := STATE_SET_ALARM, stage := SET_HOURS,
      clock := { s.clock with
        alarm_status := 1, clock_alarm_time := ⟨0, 0, 0⟩, is_set_alarm_mode := 1,
        trace := s.clock.trace ++ [Event.gpio_set_level s.clock.status_led_gpio 1] },
      trace := s.trace ++ [Event.spawn_set_time_task, Event.vTaskDelay 50] },
      task_pc.loop set_target.alarm) := by
    show set_time_task_step s1 task_pc.entry now = _
    rw [e1]
    simp [set_time_task_step, set_time_task_start, enter_set, clock_enter_set_alarm,
      clock_enable_alarm, STATE_SET_ALARM, STATE_SET_TIME]
  have e3 : r3 = ({ s with
      switch_on := 1, set_time_done := 0, station_state := STATE_SET_ALARM, stage := SET_HOURS,
      button_pressed := 0, button_up_pressed := 0, button_down_pressed := 0,
      clock := { s.clock with
        alarm_status := 1, clock_alarm_time := ⟨0, 0, 1⟩, is_set_alarm_mode := 1,
        trace := s.clock.trace ++ [Event.gpio_set_level s.clock.status_led_gpio 1] },
      trace := s.trace ++ [Event.spawn_set_time_task, Event.vTaskDelay 50, Event.vTaskDelay 50] },
      task_pc.loop set_target.alarm) := by
    show set_time_task_step (latch_up r2.1) r2.2 now = _
    rw [e2]
    simp [set_time_task_step, set_time_task_body, latch_up, consume_is_btn_pressed,
      consume_is_btn_up_pressed, consume_is_btn_down_pressed, adjust_hour,
      clock_adjust_alarm_hour, SET_HOURS, MAX_SET_TIME_STAGE, to_int32, to_uint32]
  have e4 : r4 = ({ s with
      switch_on := 1, set_time_done := 0, station_state := STATE_SET_ALARM, stage := SET_MINUTES,
      button_pressed := 0, button_up_pressed := 0, button_down_pressed := 0,
      clock := { s.clock with
        alarm_status := 1, clock_alarm_time := ⟨0, 0, 1⟩, is_set_alarm_mode := 1,
        trace := s.clock.trace ++ [Event.gpio_set_level s.clock.status_led_gpio 1] },
      trace := s.trace ++ [Event.spawn_set_time_task, Event.vTaskDelay 50, Event.vTaskDelay 50,
        Event.vTaskDelay 50] },
      task_pc.loop set_target.alarm) := by
    show set_time_task_step (latch_ctrl r3.1) r3.2 now = _
    rw [e3]
    simp [set_time_task_step, set_time_task_body, latch_ctrl, consume_is_btn_pressed,
      consume_is_btn_up_pressed, consume_is_btn_down_pressed, SET_HOURS, SET_MINUTES,
      MAX_SET_TIME_STAGE]
  have e5 : r5 = ({ s with
      switch_on := 1, set_time_done := 1, station_state := STATE_SET_ALARM, stage := 2,
      button_pressed := 0, button_up_pressed := 0, button_down_pressed := 0,
      clock := { s.clock with
        alarm_status := 1, clock_alarm_time := ⟨0, 0, 1⟩, is_set_alarm_mode := 1,
        trace := s.clock.trace ++ [Event.gpio_set_level s.clock.status_led_gpio 1] },
      trace := s.trace ++ [Event.spawn_set_time_task, Event.vTaskDelay 50, Event.vTaskDelay 50,
        Event.vTaskDelay 50, Event.vTaskDelay 50] },
      task_pc.loop set_target.alarm) := by
    show set_time_task_step (latch_ctrl r4.1) r4.2 now = _
    rw [e4]
    simp [set_time_task_step, set_time_task_body, latch_ctrl, consume_is_btn_pressed,
      consume_is_btn_up_pressed, consume_is_btn_down_pressed, SET_MINUTES,
      MAX_SET_TIME_STAGE]
  have e6 : r6 = (set_time_task_exit r5.1 set_target.alarm, task_pc.deleted) := by
    show set_time_task_step r5.1 r5.2 now = _
    rw [e5]
    simp [set_time_task_step]
  have e7 : r7 = (set_time_task_exit (button_task_tick r5.1 g2) set_target.alarm,
      task_pc.deleted) := by
    show set_time_task_step (button_task_tick r5.1 g2) r5.2 now = _
    rw [e5]
    simp [set_time_task_step, button_task_tick, STATE_SET_ALARM, STATE_NORMAL, STATE_SET_TIME]
  have e8 : s7 = button_task_tick r6.1 g2 := rfl
  refine ⟨?_, ?_, ?_, ?_, ?_, ?_, ?_, ?_⟩
  · rw [e1]; exact ⟨rfl, rfl, rfl⟩
  · rw [e2]; exact ⟨rfl, rfl, rfl, rfl, rfl, rfl⟩
  · rw [e3]; exact ⟨rfl, rfl, rfl⟩
  · rw [e4]; exact ⟨rfl, rfl, rfl, rfl⟩
  · rw [e5]; exact ⟨rfl, rfl⟩
  · rw [e6, e5]; exact ⟨rfl, rfl, rfl⟩
  · rw [e8, e6, e5]
    simp [button_task_tick, set_time_task_exit, exit_set, clock_exit_set_alarm,
      STATE_SET_ALARM, STATE_NORMAL, STATE_SET_TIME]
  · rw [e7, e5]
    simp [button_task_tick, set_time_task_exit, exit_set, clock_exit_set_alarm,
      STATE_SET_ALARM, STATE_NORMAL, STATE_SET_TIME]

/-- Claim C7 from the initial station with a previous alarm time of 07:30. -/
theorem alarm_setting_end_to_end_witness :
    (alarm_setting_run
      { Station.initial with clock := { Clock.initial with clock_alarm_time := ⟨0, 30, 7⟩ } }
      ⟨1, 1, 1, 0⟩ ⟨1, 1, 1, 0⟩ ⟨0, 30, 12⟩).station_state = STATE_NORMAL ∧
    (alarm_setting_run
      { Station.initial with clock := { Clock.initial with clock_alarm_time := ⟨0, 30, 7⟩ } }
      ⟨1, 1, 1, 0⟩ ⟨1, 1, 1, 0⟩ ⟨0, 30, 12⟩).clock.is_set_alarm_mode = 0 ∧
    (alarm_setting_run
      { Station.initial with clock := { Clock.initial with clock_alarm_time := ⟨0, 30, 7⟩ } }
      ⟨1, 1, 1, 0⟩ ⟨1, 1, 1, 0⟩ ⟨0, 30, 12⟩).clock.clock_alarm_time = ⟨0, 0, 1⟩ ∧
    (alarm_setting_run
      { Station.initial with clock := { Clock.initial with clock_alarm_time := ⟨0, 30, 7⟩ } }
      ⟨1, 1, 1, 0⟩ ⟨1, 1, 1, 0⟩ ⟨0, 30, 12⟩).clock.alarm_status = 1 :=
  (alarm_setting_end_to_end
    { Station.initial with clock := { Clock.initial with clock_alarm_time := ⟨0, 30, 7⟩ } }
    ⟨1, 1, 1, 0⟩ ⟨1, 1, 1, 0⟩ ⟨0, 30, 12⟩
    (by decide) (by decide) (by decide) (by decide) (by decide)
    (by decide) (by decide) (by decide) (by decide)).2.2.2.2.2.2.1

/-! ## C8: latches set before the task starts -/

/-- Claim C8 fails as stated: a press of the up button latched in mode Normal
is still latched after the pass of `button_task` that creates the
time-set task, and the first pass of the task acts on it: the alarm hour
goes from 0 to 1 with no new press. -/
theorem stale_up_latch_is_acted_on :
    normal_up_latched.station_state = STATE_NORMAL ∧
    (button_task_tick normal_up_latched ⟨1, 1, 1, 0⟩).station_state = STATE_SET_ALARM ∧
    (button_task_tick normal_up_latched ⟨1, 1, 1, 0⟩).button_up_pressed = 1 ∧
    (set_time_task_step (button_task_tick normal_up_latched ⟨1, 1, 1, 0⟩)
      task_pc.entry ⟨0, 30, 12⟩).1.clock.clock_alarm_time.hour = 0 ∧
    (set_time_task_step
      (set_time_task_step (button_task_tick normal_up_latched ⟨1, 1, 1, 0⟩)
        task_pc.entry ⟨0, 30, 12⟩).1
      (set_time_task_step (button_task_tick normal_up_latched ⟨1, 1, 1, 0⟩)
        task_pc.entry ⟨0, 30, 12⟩).2 ⟨0, 30, 12⟩).1.clock.clock_alarm_time.hour = 1 := by
  decide

/-- With the three latches clear, one pass of the loop body of `set_time_task`
changes neither the clock nor the stage. -/
theorem set_time_task_body_idle (x : Station) (tgt : set_target)
    (hb : x.button_pressed = 0) (hu : x.button_up_pressed = 0)
    (hd : x.button_down_pressed = 0) :
    (set_time_task_body x tgt).clock = x.clock ∧ (set_time_task_body x tgt).stage = x.stage := by
  unfold set_time_task_body
  simp [consume_is_btn_pressed, consume_is_btn_up_pressed, consume_is_btn_down_pressed,
    hb, hu, hd]

/-- In mode Normal one pass of `button_task` leaves the ctrl latch clear and
only adds the sampled level to the up and down latches. -/
theorem button_task_tick_normal_latches (s : Station) (g : gpio_levels)
    (hn : s.station_state = STATE_NORMAL) :
    (button_task_tick s g).button_pressed = 0 ∧
    (button_task_tick s g).button_up_pressed = s.button_up_pressed ||| lnot g.up ∧
    (button_task_tick s g).button_down_pressed = s.button_down_pressed ||| lnot g.down := by
  unfold button_task_tick
  simp only [hn, if_true, consume_is_btn_pressed]
  refine ⟨?_, ?_, ?_⟩ <;> split_ifs <;> rfl

/-- In mode Normal one pass of `button_task` either stays in mode Normal or
clears `set_time_done`. -/
theorem button_task_tick_normal_done (s : Station) (g : gpio_levels)
    (hn : s.station_state = STATE_NORMAL) :
    (button_task_tick s g).station_state = STATE_NORMAL ∨
      (button_task_tick s g).set_time_done = 0 := by
  unfold button_task_tick
  simp only [hn, if_true, consume_is_btn_pressed]
  split_ifs
  · exact Or.inr rfl
  · exact Or.inr rfl
  · exact Or.inr rfl
  · exact Or.inl rfl
  · exact Or.inr rfl
  · exact Or.inl rfl

/-- Claim C8, amended: the pass of `button_task` that leaves mode Normal
clears the ctrl latch only; the up and down latches keep their value, or-ed
with the level just sampled.  When these two are clear after that pass, the
first pass of the time-set task leaves the clock (hour and minute included)
and the stage unchanged. -/
theorem only_ctrl_latch_is_consumed (s : Station) (g : gpio_levels) (now : tm)
    (hn : s.station_state = STATE_NORMAL) :
    let s1 := button_task_tick s g
    let r2 := set_time_task_step s1 task_pc.entry now
    let r3 := set_time_task_step r2.1 r2.2 now
    s1.button_pressed = 0 ∧
    s1.button_up_pressed = s.button_up_pressed ||| lnot g.up ∧
    s1.button_down_pressed = s.button_down_pressed ||| lnot g.down ∧
    (s1.button_up_pressed = 0 → s1.button_down_pressed = 0 →
      r3.1.clock = r2.1.clock ∧ r3.1.stage = r2.1.stage ∧ r3.2 = r2.2) := by
  intro s1 r2 r3
  obtain ⟨h1, h2, h3⟩ := button_task_tick_normal_latches s g hn
  refine ⟨h1, h2, h3, ?_⟩
  intro hu hd
  have hdone : s1.station_state = STATE_NORMAL ∨ s1.set_time_done = 0 :=
    button_task_tick_normal_done s g hn
  have hstep : ∀ tgt : set_target, ∀ c : Clock,
      (set_time_task_step { s1 with stage := SET_HOURS, clock := c } (task_pc.loop tgt) now)
        = (set_time_task_body { s1 with stage := SET_HOURS, clock := c } tgt,
            task_pc.loop tgt) ∨ s1.station_state = STATE_NORMAL := by
    intro tgt c
    rcases hdone with h | h
    · exact Or.inr h
    · left
      simp [set_time_task_step, h]
  show (set_time_task_step (set_time_task_step s1 task_pc.entry now).1
      (set_time_task_step s1 task_pc.entry now).2 now).1.clock =
        (set_time_task_step s1 task_pc.entry now).1.clock ∧
    (set_time_task_step (set_time_task_step s1 task_pc.entry now).1
      (set_time_task_step s1 task_pc.entry now).2 now).1.stage =
        (set_time_task_step s1 task_pc.entry now).1.stage ∧
    (set_time_task_step (set_time_task_step s1 task_pc.entry now).1
      (set_time_task_step s1 task_pc.entry now).2 now).2 =
        (set_time_task_step s1 task_pc.entry now).2
  by_cases ht : s1.station_state = STATE_SET_TIME
  · have e2 : set_time_task_step s1 task_pc.entry now =
        ({ s1 with stage := SET_HOURS, clock := clock_enter_set_time s1.clock now },
          task_pc.loop set_target.time) := by
      simp [set_time_task_step, set_time_task_start, ht, enter_set]
    rw [e2]
    rcases hstep set_target.time (clock_enter_set_time s1.clock now) with h | h
    · rw [h]
      have hb := set_time_task_body_idle
        { s1 with stage := SET_HOURS, clock := clock_enter_set_time s1.clock now }
        set_target.time h1 hu hd
      exact ⟨hb.1, hb.2, rfl⟩
    · rw [ht] at h
      exact absurd h (by decide)
  · by_cases hal : s1.station_state = STATE_SET_ALARM
    · have e2 : set_time_task_step s1 task_pc.entry now =
          ({ s1 with stage := SET_HOURS, clock := clock_enter_set_alarm s1.clock },
            task_pc.loop set_target.alarm) := by
        simp [set_time_task_step, set_time_task_start, ht, hal, enter_set, STATE_SET_ALARM,
          STATE_SET_TIME]
      rw [e2]
      rcases hstep set_target.alarm (clock_enter_set_alarm s1.clock) with h | h
      · rw [h]
        have hb := set_time_task_body_idle
          { s1 with stage := SET_HOURS, clock := clock_enter_set_alarm s1.clock }
          set_target.alarm h1 hu hd
        exact ⟨hb.1, hb.2, rfl⟩
      · rw [hal] at h
        exact absurd h (by decide)
    · have e2 : set_time_task_step s1 task_pc.entry now =
          ({ s1 with stage := SET_HOURS, trace := s1.trace ++ [Event.vTaskDelete] },
            task_pc.deleted) := by
        simp [set_time_task_step, set_time_task_start, ht, hal]
      rw [e2]
      exact ⟨rfl, rfl, rfl⟩

/-- The amended C8 on the initial station with the switch engaged and no
button pressed: the task is created and its first pass changes nothing. -/
theorem only_ctrl_latch_is_consumed_witness :
    Station.initial.station_state = STATE_NORMAL ∧
    (button_task_tick Station.initial ⟨1, 1, 1, 0⟩).button_up_pressed = 0 ∧
    (button_task_tick Station.initial ⟨1, 1, 1, 0⟩).button_down_pressed = 0 ∧
    (set_time_task_step (button_task_tick Station.initial ⟨1, 1, 1, 0⟩) task_pc.entry
      ⟨0, 30, 12⟩).2 = task_pc.loop set_target.alarm ∧
    (set_time_task_step
      (set_time_task_step (button_task_tick Station.initial ⟨1, 1, 1, 0⟩) task_pc.entry
        ⟨0, 30, 12⟩).1
      (set_time_task_step (button_task_tick Station.initial ⟨1, 1, 1, 0⟩) task_pc.entry
        ⟨0, 30, 12⟩).2 ⟨0, 30, 12⟩).1.clock =
    (set_time_task_step (button_task_tick Station.initial ⟨1, 1, 1, 0⟩) task_pc.entry
      ⟨0, 30, 12⟩).1.clock :=
  ⟨by decide, by decide, by decide, by decide,
    ((only_ctrl_latch_is_consumed Station.initial ⟨1, 1, 1, 0⟩ ⟨0, 30, 12⟩ (by decide)).2.2.2
      (by decide) (by decide)).1⟩

/-! ## C9: adjust operations outside their session -/

/-- Claim C9: for every state and every delta, an adjust operation called
while the session of its own target is not active returns the clock
unchanged (time shadow, alarm time, mode flags, alarm flags and trace),
whether or not the session of the other target is active. -/
theorem adjust_without_session (c : Clock) (d : Int) :
    (c.is_set_time_mode = 0 →
      clock_adjust_time_min c d = c ∧ clock_adjust_time_hour c d = c) ∧
    (c.is_set_alarm_mode = 0 →
      clock_adjust_alarm_min c d = c ∧ clock_adjust_alarm_hour c d = c) := by
  constructor
  · intro h
    exact ⟨by unfold clock_adjust_time_min; rw [if_pos h],
      by unfold clock_adjust_time_hour; rw [if_pos h]⟩
  · intro h
    exact ⟨by unfold clock_adjust_alarm_min; rw [if_pos h],
      by unfold clock_adjust_alarm_hour; rw [if_pos h]⟩

/-- Claim C9 while the session of the other target is active. -/
theorem adjust_without_session_witness :
    (editing_alarm.is_set_time_mode = 0 ∧ editing_alarm.is_set_alarm_mode = 1 ∧
      clock_adjust_time_hour editing_alarm 1 = editing_alarm) ∧
    (editing_time.is_set_alarm_mode = 0 ∧ editing_time.is_set_time_mode = 1 ∧
      clock_adjust_alarm_min editing_time (-1) = editing_time) :=
  ⟨⟨by decide, by decide, ((adjust_without_session editing_alarm 1).1 (by decide)).2⟩,
   ⟨by decide, by decide, ((adjust_without_session editing_time (-1)).2 (by decide)).1⟩⟩

/-! ## C10: the adjust rule for every 32-bit delta -/

/-- Claim C10 fails as stated: under an active session, with the field at 1
and the delta 2147483647, the `int32_t` sum of the sign test is out of range
(it wraps to -2147483648), so each of the four adjust operations stores the
maximum (59 or 23), while the sum 2147483648 is not negative and the rule
gives 2147483648 mod 60 = 8 and 2147483648 mod 24 = 8. -/
theorem adjust_int32_overflow_stores_max :
    (clock_adjust_time_min editing_time 1).is_set_time_mode ≠ 0 ∧
    (clock_adjust_time_min editing_time 1).clock_time.min = 1 ∧
    (clock_adjust_time_min (clock_adjust_time_min editing_time 1) 2147483647).clock_time.min
      = 59 ∧
    adjust_spec 1 2147483647 60 59 = 8 ∧
    (clock_adjust_time_min (clock_adjust_time_min editing_time 1) 2147483647).clock_time.min
      ≠ adjust_spec (clock_adjust_time_min editing_time 1).clock_time.min 2147483647 60 59 ∧
    (clock_adjust_time_hour { editing_time with clock_time := ⟨0, 0, 1⟩ }
      2147483647).clock_time.hour = 23 ∧
    (clock_adjust_alarm_min (clock_adjust_alarm_min editing_alarm 1)
      2147483647).clock_alarm_time.min = 59 ∧
    (clock_adjust_alarm_hour (clock_adjust_alarm_hour editing_alarm 1)
      2147483647).clock_alarm_time.hour = 23 ∧
    adjust_spec 1 2147483647 24 23 = 8 := by
  decide

/-- Claim C10, amended: for every delta of type `int32_t` whose sum with the
field does not exceed 2147483647, each of the four adjust operations, called
while its own session is active on an in-range field, stores the maximum (59
or 23) when the sum is negative and the sum modulo the range (60 or 24)
otherwise, and changes nothing else. -/
theorem adjust_rule_within_int32 (c : Clock) (d : Int)
    (hlo : -2147483648 ≤ d) :
    (c.is_set_time_mode ≠ 0 → c.clock_time.min < 60 →
      (c.clock_time.min : Int) + d ≤ 2147483647 →
      clock_adjust_time_min c d =
        { c with clock_time :=
            { c.clock_time with min := adjust_spec c.clock_time.min d 60 59 } }) ∧
    (c.is_set_time_mode ≠ 0 → c.clock_time.hour < 24 →
      (c.clock_time.hour : Int) + d ≤ 2147483647 →
      clock_adjust_time_hour c d =
        { c with clock_time :=
            { c.clock_time with hour := adjust_spec c.clock_time.hour d 24 23 } }) ∧
    (c.is_set_alarm_mode ≠ 0 → c.clock_alarm_time.min < 60 →
      (c.clock_alarm_time.min : Int) + d ≤ 2147483647 →
      clock_adjust_alarm_min c d =
        { c with clock_alarm_time :=
            { c.clock_alarm_time with min := adjust_spec c.clock_alarm_time.min d 60 59 } }) ∧
    (c.is_set_alarm_mode ≠ 0 → c.clock_alarm_time.hour < 24 →
      (c.clock_alarm_time.hour : Int) + d ≤ 2147483647 →
      clock_adjust_alarm_hour c d =
        { c with clock_alarm_time :=
            { c.clock_alarm_time with hour := adjust_spec c.clock_alarm_time.hour d 24 23 } }) := by
  refine ⟨fun hm hv hs => ?_, fun hm hv hs => ?_, fun hm hv hs => ?_, fun hm hv hs => ?_⟩
  · exact clock_adjust_time_min_eq c d hm (by omega) hlo (by omega)
  · exact clock_adjust_time_hour_eq c d hm (by omega) hlo (by omega)
  · exact clock_adjust_alarm_min_eq c d hm (by omega) hlo (by omega)
  · exact clock_adjust_alarm_hour_eq c d hm (by omega) hlo (by omega)

/-- The amended C10 at 12:00 and at 00:00 with deltas beyond -1 and +1, the
two ends of the `int32_t` range included. -/
theorem adjust_rule_within_int32_witness :
    (editing_time.is_set_time_mode ≠ 0 ∧ editing_time.clock_time = ⟨0, 0, 12⟩ ∧
      editing_alarm.is_set_alarm_mode ≠ 0 ∧ editing_alarm.clock_alarm_time = ⟨0, 0, 0⟩) ∧
    (clock_adjust_time_min editing_time 2147483647).clock_time = ⟨0, 7, 12⟩ ∧
    (clock_adjust_time_hour editing_time 49).clock_time = ⟨0, 0, 13⟩ ∧
    (clock_adjust_time_hour editing_time (-12)).clock_time = ⟨0, 0, 0⟩ ∧
    (clock_adjust_alarm_min editing_alarm 125).clock_alarm_time = ⟨0, 5, 0⟩ ∧
    (clock_adjust_alarm_hour editing_alarm (-2147483648)).clock_alarm_time = ⟨0, 0, 23⟩ := by
  refine ⟨by decide, ?_, ?_, ?_, ?_, ?_⟩
  · rw [(adjust_rule_within_int32 editing_time 2147483647 (by decide)).1
      (by decide) (by decide) (by decide)]
    decide
  · rw [(adjust_rule_within_int32 editing_time 49 (by decide)).2.1
      (by decide) (by decide) (by decide)]
    decide
  · rw [(adjust_rule_within_int32 editing_time (-12) (by decide)).2.1
      (by decide) (by decide) (by decide)]
    decide
  · rw [(adjust_rule_within_int32 editing_alarm 125 (by decide)).2.2.1
      (by decide) (by decide) (by decide)]
    decide
  · rw [(adjust_rule_within_int32 editing_alarm (-2147483648) (by decide)).2.2.2
      (by decide) (by decide) (by decide)]
    decide

/-! ## C11: reading the time during an edit session -/

/-- The or of the two mode flags is zero only when both are. -/
theorem lor_ne_zero (a b : Nat) (h : a ≠ 0 ∨ b ≠ 0) : a ||| b ≠ 0 := by
  intro h0
  have ha : a = 0 := by
    apply Nat.eq_of_testBit_eq
    intro i
    have := congrArg (fun n => n.testBit i) h0
    simp only [Nat.testBit_or, Nat.zero_testBit, Bool.or_eq_false_iff] at this
    simp [this.1]
  have hb : b = 0 := by
    apply Nat.eq_of_testBit_eq
    intro i
    have := congrArg (fun n => n.testBit i) h0
    simp only [Nat.testBit_or, Nat.zero_testBit, Bool.or_eq_false_iff] at this
    simp [this.2]
  rcases h with h | h
  · exact h ha
  · exact h hb

/-- Claim C11: while an edit session is active `clock_get_time` (non-NULL
`stime`) returns `ESP_OK`, leaves the clock unchanged for every sample (so the
trip detector does not run, the flag is not set and no ring task is created,
even on a matching sample) and stores `true` through `is_being_modified`; it
stores the time shadow when the time session is active and the alarm time
when only the alarm session is.  With no session active it stores `false` and
the sample read from the wall clock. -/
theorem get_time_during_edit (c : Clock) (t : tm) (ibm : Bool) :
    (c.is_set_time_mode ≠ 0 ∨ c.is_set_alarm_mode ≠ 0 →
      (clock_get_time c t true ibm).rc = ESP_OK ∧
      (clock_get_time c t true ibm).clock = c ∧
      (clock_get_time c t true ibm).is_being_modified = (if ibm then some true else none) ∧
      (c.is_set_time_mode ≠ 0 → (clock_get_time c t true ibm).stime = some c.clock_time) ∧
      (c.is_set_time_mode = 0 →
        (clock_get_time c t true ibm).stime = some c.clock_alarm_time)) ∧
    (c.is_set_time_mode = 0 → c.is_set_alarm_mode = 0 → tm_valid t →
      (clock_get_time c t true ibm).rc = ESP_OK ∧
      (clock_get_time c t true ibm).is_being_modified = (if ibm then some false else none) ∧
      ∃ v : clock_time_t, (clock_get_time c t true ibm).stime = some v ∧
        (v.sec : Int) = t.tm_sec ∧ (v.min : Int) = t.tm_min ∧ (v.hour : Int) = t.tm_hour) := by
  constructor
  · intro h
    have hl := lor_ne_zero _ _ h
    unfold clock_get_time
    by_cases ht : c.is_set_time_mode = 0
    · have ha : c.is_set_alarm_mode ≠ 0 := by
        rcases h with h | h
        · exact absurd ht h
        · exact h
      simp [ht, ha]
    · simp [ht, hl]
  · intro ht ha hv
    obtain ⟨h1, h2, h3, h4, h5, h6⟩ := hv
    unfold clock_get_time
    simp only [ht, ha, ne_eq, not_true_eq_false, if_false, Bool.true_eq_false]
    refine ⟨trivial, ?_, ⟨to_uint32 t.tm_sec, to_uint32 t.tm_min, to_uint32 t.tm_hour⟩, rfl, ?_, ?_, ?_⟩
    · cases ibm <;> simp
    · show ((to_uint32 t.tm_sec : Nat) : Int) = t.tm_sec
      unfold to_uint32; omega
    · show ((to_uint32 t.tm_min : Nat) : Int) = t.tm_min
      unfold to_uint32; omega
    · show ((to_uint32 t.tm_hour : Nat) : Int) = t.tm_hour
      unfold to_uint32; omega

/-- Claim C11 on a clock editing the alarm, with the sample 00:00:00 that
matches the alarm time being edited, and on an idle clock at 12:30:05. -/
theorem get_time_during_edit_witness :
    (editing_alarm.is_set_alarm_mode ≠ 0 ∧ editing_alarm.is_set_time_mode = 0 ∧
      trip_condition editing_alarm ⟨0, 0, 0⟩) ∧
    (clock_get_time editing_alarm ⟨0, 0, 0⟩ true true).clock = editing_alarm ∧
    (clock_get_time editing_alarm ⟨0, 0, 0⟩ true true).stime =
      some editing_alarm.clock_alarm_time ∧
    (clock_get_time editing_alarm ⟨0, 0, 0⟩ true true).is_being_modified = some true ∧
    (clock_get_time armed_at_seven ⟨5, 30, 12⟩ true true).is_being_modified = some false :=
  have h := (get_time_during_edit editing_alarm ⟨0, 0, 0⟩ true).1 (Or.inr (by decide))
  have k := (get_time_during_edit armed_at_seven ⟨5, 30, 12⟩ true).2
    (by decide) (by decide) (by decide)
  ⟨by decide, h.2.1, h.2.2.2.2 (by decide), h.2.2.1, k.2.1⟩

/-! ## C12: disarming while the alarm rings -/

/-- Claim C12 fails as stated: the alarm rings, the task plays its first
beep, the alarm is disarmed during the pause that follows, and the task still
plays the second and the third beep and the long pause; the buzzer is stopped
and the task deleted only at the next test of the loop, seven steps later. -/
theorem beep_after_disarm :
    clock_is_alarm_ringing ringing_at_seven = 1 ∧
    (ring_alarm_task_step ringing_at_seven ring_pc.head).2 = ring_pc.pause1 ∧
    beeps (ring_alarm_task_step ringing_at_seven ring_pc.head).1.trace = 1 ∧
    clock_is_alarm_ringing
      (clock_disable_alarm (ring_alarm_task_step ringing_at_seven ring_pc.head).1) = 0 ∧
    (ring_run 2
      (clock_disable_alarm (ring_alarm_task_step ringing_at_seven ring_pc.head).1,
        ring_pc.pause1)).2 = ring_pc.pause2 ∧
    beeps (ring_run 2
      (clock_disable_alarm (ring_alarm_task_step ringing_at_seven ring_pc.head).1,
        ring_pc.pause1)).1.trace = 2 ∧
    beeps (ring_run 7
      (clock_disable_alarm (ring_alarm_task_step ringing_at_seven ring_pc.head).1,
        ring_pc.pause1)).1.trace = 3 ∧
    (ring_run 6
      (clock_disable_alarm (ring_alarm_task_step ringing_at_seven ring_pc.head).1,
        ring_pc.pause1)).2 = ring_pc.head ∧
    (ring_run 7
      (clock_disable_alarm (ring_alarm_task_step ringing_at_seven ring_pc.head).1,
        ring_pc.pause1)).2 = ring_pc.deleted := by
  decide

/-- Beeps of a concatenated trace. -/
theorem beeps_append (a b : List Event) : beeps (a ++ b) = beeps a + beeps b := by
  unfold beeps
  exact List.count_append _ _ _

/-- One beep adds one `buzzer_beep` to the trace. -/
theorem ring_beep_beeps (c : Clock) : beeps (ring_beep c).trace = beeps c.trace + 1 := by
  unfold ring_beep
  rw [beeps_append]
  simp [beeps]

/-- A pause adds no beep. -/
theorem ring_pause_beeps (c : Clock) (ms : Nat) :
    beeps (ring_pause c ms).trace = beeps c.trace := by
  unfold ring_pause
  rw [beeps_append]
  simp [beeps]

/-- The exit of the task adds no beep. -/
theorem ring_exit_beeps (c : Clock) : beeps (ring_alarm_task_exit c).trace = beeps c.trace := by
  unfold ring_alarm_task_exit
  rw [beeps_append]
  simp [beeps]

/-- A beep writes neither alarm flag. -/
theorem ringing_ring_beep (c : Clock) :
    clock_is_alarm_ringing (ring_beep c) = clock_is_alarm_ringing c := rfl

/-- A pause writes neither alarm flag. -/
theorem ringing_ring_pause (c : Clock) (ms : Nat) :
    clock_is_alarm_ringing (ring_pause c ms) = clock_is_alarm_ringing c := rfl

/-- A beep leaves the LED pin number alone. -/
theorem led_ring_beep (c : Clock) : (ring_beep c).status_led_gpio = c.status_led_gpio := rfl

/-- A pause leaves the LED pin number alone. -/
theorem led_ring_pause (c : Clock) (ms : Nat) :
    (ring_pause c ms).status_led_gpio = c.status_led_gpio := rfl

/-- The calls made by the exit of the task. -/
theorem ring_exit_trace (c : Clock) :
    (ring_alarm_task_exit c).trace = c.trace ++
      [Event.buzzer_stop, Event.gpio_set_level c.status_led_gpio 0, Event.vTaskDelete] := rfl

/-- With the alarm not ringing, the step at the loop test ends the task. -/
theorem ring_step_head_idle (c : Clock) (h : clock_is_alarm_ringing c = 0) :
    ring_alarm_task_step c ring_pc.head = (ring_alarm_task_exit c, ring_pc.deleted) := by
  simp [ring_alarm_task_step, h]

/-- Claim C12, amended: `ring_alarm_task` tests `alarm_status` and
`has_alarm_tripped` only at the head of a pass of the pattern.  From any
position of the pattern, once the two no longer both hold, the task runs the
steps that remain in the pass (up to two more beeps), then stops the buzzer,
turns the LED off and deletes itself at the next test without starting a new
pass; at the head it does so at once. -/
theorem ring_stops_at_next_loop_test (c : Clock) (pc : ring_pc)
    (h : clock_is_alarm_ringing c = 0) (hp : pc ≠ ring_pc.deleted) :
    (ring_run (ring_steps_left pc) (c, pc)).2 = ring_pc.deleted ∧
    (∀ m : Nat, m < ring_steps_left pc → (ring_run m (c, pc)).2 ≠ ring_pc.deleted) ∧
    beeps (ring_run (ring_steps_left pc) (c, pc)).1.trace = beeps c.trace + ring_beeps_left pc ∧
    (∃ tr : List Event, (ring_run (ring_steps_left pc) (c, pc)).1.trace =
      tr ++ [Event.buzzer_stop, Event.gpio_set_level c.status_led_gpio 0, Event.vTaskDelete]) ∧
    ring_alarm_task_step c ring_pc.head = (ring_alarm_task_exit c, ring_pc.deleted) := by
  have hh := ring_step_head_idle c h
  refine ⟨?_, ?_, ?_, ?_, hh⟩
  · cases pc <;>
      simp [ring_run, ring_steps_left, ring_alarm_task_step, ringing_ring_beep,
        ringing_ring_pause, h] at hp ⊢
  · intro m hm
    cases pc <;> simp only [ring_steps_left] at hm <;> interval_cases m <;>
      simp [ring_run, ring_alarm_task_step, ringing_ring_beep, ringing_ring_pause, h] at hp ⊢
  · cases pc <;>
      simp [ring_run, ring_steps_left, ring_beeps_left, ring_alarm_task_step,
        ringing_ring_beep, ringing_ring_pause, h, ring_exit_beeps, ring_beep_beeps,
        ring_pause_beeps] at hp ⊢
  · cases pc <;>
      simp [ring_run, ring_steps_left, ring_alarm_task_step, ringing_ring_beep,
        ringing_ring_pause, h] at hp ⊢ <;>
      rw [ring_exit_trace] <;>
      (try simp only [led_ring_beep, led_ring_pause]) <;>
      exact ⟨_, rfl⟩

/-- The amended C12 on an alarm disarmed during the pause after the first
beep: seven more steps, two more beeps, then the task is deleted. -/
theorem ring_stops_at_next_loop_test_witness :
    clock_is_alarm_ringing
      (clock_disable_alarm (ring_alarm_task_step ringing_at_seven ring_pc.head).1) = 0 ∧
    (ring_run 7
      (clock_disable_alarm (ring_alarm_task_step ringing_at_seven ring_pc.head).1,
        ring_pc.pause1)).2 = ring_pc.deleted ∧
    beeps (ring_run 7
      (clock_disable_alarm (ring_alarm_task_step ringing_at_seven ring_pc.head).1,
        ring_pc.pause1)).1.trace =
      beeps (clock_disable_alarm
        (ring_alarm_task_step ringing_at_seven ring_pc.head).1).trace + 2 :=
  have h := ring_stops_at_next_loop_test
    (clock_disable_alarm (ring_alarm_task_step ringing_at_seven ring_pc.head).1)
    ring_pc.pause1 (by decide) (by decide)
  ⟨by decide, h.1, h.2.2.1⟩

/-! ## C13: one pass of the time-set task -/

/-- A time-set task at its loop test is deleted by the next step exactly when
`set_time_done` is set. -/
theorem set_time_task_step_deleted_iff (x : Station) (tgt : set_target) (now : tm) :
    (set_time_task_step x (task_pc.loop tgt) now).2 = task_pc.deleted ↔ x.set_time_done ≠ 0 := by
  unfold set_time_task_step
  by_cases h : x.set_time_done = 0
  · simp [h]
  · simp [h]

/-- One pass of the loop body of `set_time_task` in terms of the calls it
makes through its function pointers: up, else down, else ctrl. -/
theorem set_time_task_body_dispatch (s : Station) (tgt : set_target) (now : tm) :
    (s.button_up_pressed ≠ 0 →
      (s.stage = SET_HOURS → (set_time_task_body s tgt).clock = adjust_hour tgt s.clock 1) ∧
      (s.stage = SET_MINUTES → (set_time_task_body s tgt).clock = adjust_min tgt s.clock 1) ∧
      (set_time_task_body s tgt).stage = s.stage) ∧
    (s.button_up_pressed = 0 → s.button_down_pressed ≠ 0 →
      (s.stage = SET_HOURS → (set_time_task_body s tgt).clock = adjust_hour tgt s.clock (-1)) ∧
      (s.stage = SET_MINUTES →
        (set_time_task_body s tgt).clock = adjust_min tgt s.clock (-1)) ∧
      (set_time_task_body s tgt).stage = s.stage) ∧
    (s.button_up_pressed = 0 → s.button_down_pressed = 0 → s.button_pressed ≠ 0 →
      (set_time_task_body s tgt).stage = s.stage + 1 ∧
      (set_time_task_body s tgt).clock = s.clock) ∧
    (s.button_up_pressed = 0 → s.button_down_pressed = 0 → s.button_pressed = 0 →
      (set_time_task_body s tgt).stage = s.stage ∧
      (set_time_task_body s tgt).clock = s.clock) ∧
    s.stage ≤ (set_time_task_body s tgt).stage ∧
    ((set_time_task_body s tgt).set_time_done ≠ 0 ↔
      MAX_SET_TIME_STAGE ≤ (set_time_task_body s tgt).stage) ∧
    ((set_time_task_step (set_time_task_body s tgt) (task_pc.loop tgt) now).2 = task_pc.deleted ↔
      SET_MINUTES < (set_time_task_body s tgt).stage) := by
  have hstage : (set_time_task_body s tgt).stage =
      if s.button_up_pressed = 0 ∧ s.button_down_pressed = 0 ∧ s.button_pressed ≠ 0
      then s.stage + 1 else s.stage := by
    unfold set_time_task_body
    simp only [consume_is_btn_pressed, consume_is_btn_up_pressed, consume_is_btn_down_pressed]
    by_cases hu : s.button_up_pressed = 0 <;> by_cases hd : s.button_down_pressed = 0 <;>
      by_cases hc : s.button_pressed = 0 <;> simp [hu, hd, hc] <;> split_ifs <;> rfl
  have hdone : (set_time_task_body s tgt).set_time_done =
      if MAX_SET_TIME_STAGE ≤ (set_time_task_body s tgt).stage then 1 else 0 := by
    rw [hstage]
    unfold set_time_task_body
    simp only [consume_is_btn_pressed, consume_is_btn_up_pressed, consume_is_btn_down_pressed]
    by_cases hu : s.button_up_pressed = 0 <;> by_cases hd : s.button_down_pressed = 0 <;>
      by_cases hc : s.button_pressed = 0 <;> simp [hu, hd, hc] <;> split_ifs <;> rfl
  refine ⟨?_, ?_, ?_, ?_, ?_, ?_, ?_⟩
  · intro hu
    refine ⟨fun h0 => ?_, fun h1 => ?_, ?_⟩
    · unfold set_time_task_body
      simp [consume_is_btn_pressed, consume_is_btn_up_pressed, consume_is_btn_down_pressed,
        hu, h0]
    · unfold set_time_task_body
      simp [consume_is_btn_pressed, consume_is_btn_up_pressed, consume_is_btn_down_pressed,
        hu, h1, SET_MINUTES, SET_HOURS]
    · rw [hstage, if_neg (fun h => hu h.1)]
  · intro hu hd
    refine ⟨fun h0 => ?_, fun h1 => ?_, ?_⟩
    · unfold set_time_task_body
      simp [consume_is_btn_pressed, consume_is_btn_up_pressed, consume_is_btn_down_pressed,
        hu, hd, h0]
    · unfold set_time_task_body
      simp [consume_is_btn_pressed, consume_is_btn_up_pressed, consume_is_btn_down_pressed,
        hu, hd, h1, SET_MINUTES, SET_HOURS]
    · rw [hstage, if_neg (fun h => hd h.2.1)]
  · intro hu hd hc
    refine ⟨?_, ?_⟩
    · rw [hstage, if_pos ⟨hu, hd, hc⟩]
    · unfold set_time_task_body
      simp [consume_is_btn_pressed, consume_is_btn_up_pressed, consume_is_btn_down_pressed,
        hu, hd, hc]
  · intro hu hd hc
    refine ⟨?_, ?_⟩
    · rw [hstage, if_neg (fun h => h.2.2 hc)]
    · unfold set_time_task_body
      simp [consume_is_btn_pressed, consume_is_btn_up_pressed, consume_is_btn_down_pressed,
        hu, hd, hc]
  · rw [hstage]
    split_ifs <;> omega
  · rw [hdone]
    split_ifs with h
    · exact ⟨fun _ => h, fun _ => Nat.one_ne_zero⟩
    · exact ⟨fun h0 => absurd rfl h0, fun h1 => absurd h1 h⟩
  · have hm : SET_MINUTES < (set_time_task_body s tgt).stage ↔
        MAX_SET_TIME_STAGE ≤ (set_time_task_body s tgt).stage := by
      unfold SET_MINUTES MAX_SET_TIME_STAGE
      omega
    rw [hm, set_time_task_step_deleted_iff, hdone]
    split_ifs with h
    · exact ⟨fun _ => h, fun _ => Nat.one_ne_zero⟩
    · exact ⟨fun h0 => absurd rfl h0, fun h1 => absurd h1 h⟩

/-- The rule for a delta of +1 is the successor modulo the range. -/
theorem adjust_spec_up (v : Nat) :
    adjust_spec v 1 60 59 = (v + 1) % 60 ∧ adjust_spec v 1 24 23 = (v + 1) % 24 := by
  unfold adjust_spec
  constructor
  · rw [if_pos (by omega)]; omega
  · rw [if_pos (by omega)]; omega

/-- The rule for a delta of -1 is the predecessor, and the maximum at 0. -/
theorem adjust_spec_down (v : Nat) :
    (v < 60 → adjust_spec v (-1) 60 59 = if v = 0 then 59 else v - 1) ∧
    (v < 24 → adjust_spec v (-1) 24 23 = if v = 0 then 23 else v - 1) := by
  unfold adjust_spec
  constructor
  · intro hv
    by_cases h0 : v = 0
    · subst h0; decide
    · rw [if_pos (by omega), if_neg h0]; omega
  · intro hv
    by_cases h0 : v = 0
    · subst h0; decide
    · rw [if_pos (by omega), if_neg h0]; omega

/-- Claim C13: in one pass of the loop body of `set_time_task`, whatever the
three latches, only the first set latch in the order up, down, ctrl is acted
on.  With up set, the pass calls the hour function of its target with +1 in
stage `SET_HOURS` and the minute function with +1 in stage `SET_MINUTES`, and
the stage is unchanged; else with down set, the same with -1; else with ctrl
set the stage grows by one and the clock is unchanged; else clock and stage
are unchanged.  Under the active session of the target and with the field in
range, up replaces the hour by (hour + 1) mod 24 or the minute by
(minute + 1) mod 60, down replaces it by the value minus 1, or by 23 or 59 at
0, and nothing else of the clock changes.  The stage never decreases,
`set_time_done` is set exactly when the stage is past `SET_MINUTES`, and that
is exactly when the next step deletes the task. -/
theorem set_time_task_tick_priority (s : Station) (tgt : set_target) (now : tm) :
    (s.button_up_pressed ≠ 0 →
      (s.stage = SET_HOURS →
        (tgt = set_target.time →
          (set_time_task_body s tgt).clock = clock_adjust_time_hour s.clock 1) ∧
        (tgt = set_target.alarm →
          (set_time_task_body s tgt).clock = clock_adjust_alarm_hour s.clock 1)) ∧
      (s.stage = SET_MINUTES →
        (tgt = set_target.time →
          (set_time_task_body s tgt).clock = clock_adjust_time_min s.clock 1) ∧
        (tgt = set_target.alarm →
          (set_time_task_body s tgt).clock = clock_adjust_alarm_min s.clock 1)) ∧
      (set_time_task_body s tgt).stage = s.stage) ∧
    (s.button_up_pressed = 0 → s.button_down_pressed ≠ 0 →
      (s.stage = SET_HOURS →
        (tgt = set_target.time →
          (set_time_task_body s tgt).clock = clock_adjust_time_hour s.clock (-1)) ∧
        (tgt = set_target.alarm →
          (set_time_task_body s tgt).clock = clock_adjust_alarm_hour s.clock (-1))) ∧
      (s.stage = SET_MINUTES →
        (tgt = set_target.time →
          (set_time_task_body s tgt).clock = clock_adjust_time_min s.clock (-1)) ∧
        (tgt = set_target.alarm →
          (set_time_task_body s tgt).clock = clock_adjust_alarm_min s.clock (-1))) ∧
      (set_time_task_body s tgt).stage = s.stage) ∧
    (s.button_up_pressed = 0 → s.button_down_pressed = 0 → s.button_pressed ≠ 0 →
      (set_time_task_body s tgt).stage = s.stage + 1 ∧
      (set_time_task_body s tgt).clock = s.clock) ∧
    (s.button_up_pressed = 0 → s.button_down_pressed = 0 → s.button_pressed = 0 →
      (set_time_task_body s tgt).stage = s.stage ∧
      (set_time_task_body s tgt).clock = s.clock) ∧
    s.stage ≤ (set_time_task_body s tgt).stage ∧
    ((set_time_task_body s tgt).set_time_done ≠ 0 ↔
      MAX_SET_TIME_STAGE ≤ (set_time_task_body s tgt).stage) ∧
    ((set_time_task_step (set_time_task_body s tgt) (task_pc.loop tgt) now).2 = task_pc.deleted ↔
      SET_MINUTES < (set_time_task_body s tgt).stage) ∧
    (session_active tgt s.clock →
      (s.button_up_pressed ≠ 0 → s.stage = SET_HOURS → (edited_time tgt s.clock).hour < 24 →
        (set_time_task_body s tgt).clock = set_edited_time tgt s.clock
          { edited_time tgt s.clock with
              hour := ((edited_time tgt s.clock).hour + 1) % 24 }) ∧
      (s.button_up_pressed ≠ 0 → s.stage = SET_MINUTES → (edited_time tgt s.clock).min < 60 →
        (set_time_task_body s tgt).clock = set_edited_time tgt s.clock
          { edited_time tgt s.clock with
              min := ((edited_time tgt s.clock).min + 1) % 60 }) ∧
      (s.button_up_pressed = 0 → s.button_down_pressed ≠ 0 → s.stage = SET_HOURS →
        (edited_time tgt s.clock).hour < 24 →
        (set_time_task_body s tgt).clock = set_edited_time tgt s.clock
          { edited_time tgt s.clock with
              hour := if (edited_time tgt s.clock).hour = 0 then 23
                else (edited_time tgt s.clock).hour - 1 }) ∧
      (s.button_up_pressed = 0 → s.button_down_pressed ≠ 0 → s.stage = SET_MINUTES →
        (edited_time tgt s.clock).min < 60 →
        (set_time_task_body s tgt).clock = set_edited_time tgt s.clock
          { edited_time tgt s.clock with
              min := if (edited_time tgt s.clock).min = 0 then 59
                else (edited_time tgt s.clock).min - 1 })) := by
  obtain ⟨hup, hdown, hctrl, hnone, hle, hdone, hdel⟩ := set_time_task_body_dispatch s tgt now
  refine ⟨fun hu => ⟨fun hs => ⟨fun ht => ?_, fun ht => ?_⟩,
      fun hs => ⟨fun ht => ?_, fun ht => ?_⟩, (hup hu).2.2⟩,
    fun hu hd => ⟨fun hs => ⟨fun ht => ?_, fun ht => ?_⟩,
      fun hs => ⟨fun ht => ?_, fun ht => ?_⟩, (hdown hu hd).2.2⟩,
    hctrl, hnone, hle, hdone, hdel, fun ha => ?_⟩
  · rw [(hup hu).1 hs, ht]; rfl
  · rw [(hup hu).1 hs, ht]; rfl
  · rw [(hup hu).2.1 hs, ht]; rfl
  · rw [(hup hu).2.1 hs, ht]; rfl
  · rw [(hdown hu hd).1 hs, ht]; rfl
  · rw [(hdown hu hd).1 hs, ht]; rfl
  · rw [(hdown hu hd).2.1 hs, ht]; rfl
  · rw [(hdown hu hd).2.1 hs, ht]; rfl
  · cases tgt
    · simp only [session_active, edited_time, set_edited_time] at ha ⊢
      refine ⟨fun hu hs hv => ?_, fun hu hs hv => ?_, fun hu hd hs hv => ?_,
        fun hu hd hs hv => ?_⟩
      · rw [(hup hu).1 hs]
        show clock_adjust_time_hour s.clock 1 = _
        rw [clock_adjust_time_hour_eq s.clock 1 ha (by omega) (by omega) (by omega),
          (adjust_spec_up _).2]
      · rw [(hup hu).2.1 hs]
        show clock_adjust_time_min s.clock 1 = _
        rw [clock_adjust_time_min_eq s.clock 1 ha (by omega) (by omega) (by omega),
          (adjust_spec_up _).1]
      · rw [(hdown hu hd).1 hs]
        show clock_adjust_time_hour s.clock (-1) = _
        rw [clock_adjust_time_hour_eq s.clock (-1) ha (by omega) (by omega) (by omega),
          (adjust_spec_down _).2 hv]
      · rw [(hdown hu hd).2.1 hs]
        show clock_adjust_time_min s.clock (-1) = _
        rw [clock_adjust_time_min_eq s.clock (-1) ha (by omega) (by omega) (by omega),
          (adjust_spec_down _).1 hv]
    · simp only [session_active, edited_time, set_edited_time] at ha ⊢
      refine ⟨fun hu hs hv => ?_, fun hu hs hv => ?_, fun hu hd hs hv => ?_,
        fun hu hd hs hv => ?_⟩
      · rw [(hup hu).1 hs]
        show clock_adjust_alarm_hour s.clock 1 = _
        rw [clock_adjust_alarm_hour_eq s.clock 1 ha (by omega) (by omega) (by omega),
          (adjust_spec_up _).2]
      · rw [(hup hu).2.1 hs]
        show clock_adjust_alarm_min s.clock 1 = _
        rw [clock_adjust_alarm_min_eq s.clock 1 ha (by omega) (by omega) (by omega),
          (adjust_spec_up _).1]
      · rw [(hdown hu hd).1 hs]
        show clock_adjust_alarm_hour s.clock (-1) = _
        rw [clock_adjust_alarm_hour_eq s.clock (-1) ha (by omega) (by omega) (by omega),
          (adjust_spec_down _).2 hv]
      · rw [(hdown hu hd).2.1 hs]
        show clock_adjust_alarm_min s.clock (-1) = _
        rw [clock_adjust_alarm_min_eq s.clock (-1) ha (by omega) (by omega) (by omega),
          (adjust_spec_down _).1 hv]

/-- Claim C13 on a time session at 23:59 and an alarm session at 00:00: up
with ctrl also set moves the hour 23 to 0 and keeps the stage; up in stage
`SET_MINUTES` moves the minute 59 to 0; down moves the alarm hour 0 to 23 and,
in stage `SET_MINUTES` with ctrl also set, the alarm minute 0 to 59; ctrl alone
in stage `SET_MINUTES` moves the stage to 2 and leaves the clock. -/
theorem set_time_task_tick_priority_witness :
    (session_active set_target.time setting_time_at_2359.clock ∧
      setting_time_at_2359.clock.clock_time = ⟨0, 59, 23⟩ ∧
      session_active set_target.alarm setting_alarm_at_0000.clock ∧
      setting_alarm_at_0000.clock.clock_alarm_time = ⟨0, 0, 0⟩) ∧
    (set_time_task_body (latch_ctrl (latch_up setting_time_at_2359))
      set_target.time).clock.clock_time = ⟨0, 59, 0⟩ ∧
    (set_time_task_body (latch_ctrl (latch_up setting_time_at_2359))
      set_target.time).stage = SET_HOURS ∧
    (set_time_task_body { latch_up setting_time_at_2359 with stage := SET_MINUTES }
      set_target.time).clock.clock_time = ⟨0, 0, 23⟩ ∧
    (set_time_task_body { setting_alarm_at_0000 with button_down_pressed := 1 }
      set_target.alarm).clock.clock_alarm_time = ⟨0, 0, 23⟩ ∧
    (set_time_task_body
      { setting_alarm_at_0000 with
          button_down_pressed := 1, button_pressed := 1, stage := SET_MINUTES }
      set_target.alarm).clock.clock_alarm_time = ⟨0, 59, 0⟩ ∧
    (set_time_task_body { latch_ctrl setting_alarm_at_0000 with stage := SET_MINUTES }
      set_target.alarm).stage = 2 ∧
    (set_time_task_body { latch_ctrl setting_alarm_at_0000 with stage := SET_MINUTES }
      set_target.alarm).clock = setting_alarm_at_0000.clock := by
  refine ⟨by decide, ?_, ?_, ?_, ?_, ?_, ?_, ?_⟩
  · rw [((set_time_task_tick_priority (latch_ctrl (latch_up setting_time_at_2359))
      set_target.time ⟨0, 0, 0⟩).2.2.2.2.2.2.2 (by decide)).1
      (by decide) (by decide) (by decide)]
    decide
  · rw [((set_time_task_tick_priority (latch_ctrl (latch_up setting_time_at_2359))
      set_target.time ⟨0, 0, 0⟩).1 (by decide)).2.2]
    decide
  · rw [((set_time_task_tick_priority
      { latch_up setting_time_at_2359 with stage := SET_MINUTES }
      set_target.time ⟨0, 0, 0⟩).2.2.2.2.2.2.2 (by decide)).2.1
      (by decide) (by decide) (by decide)]
    decide
  · rw [((set_time_task_tick_priority
      { setting_alarm_at_0000 with button_down_pressed := 1 }
      set_target.alarm ⟨0, 0, 0⟩).2.2.2.2.2.2.2 (by decide)).2.2.1
      (by decide) (by decide) (by decide) (by decide)]
    decide
  · rw [((set_time_task_tick_priority
      { setting_alarm_at_0000 with
          button_down_pressed := 1, button_pressed := 1, stage := SET_MINUTES }
      set_target.alarm ⟨0, 0, 0⟩).2.2.2.2.2.2.2 (by decide)).2.2.2
      (by decide) (by decide) (by decide) (by decide)]
    decide
  · rw [((set_time_task_tick_priority
      { latch_ctrl setting_alarm_at_0000 with stage := SET_MINUTES }
      set_target.alarm ⟨0, 0, 0⟩).2.2.1 (by decide) (by decide) (by decide)).1]
    decide
  · rw [((set_time_task_tick_priority
      { latch_ctrl setting_alarm_at_0000 with stage := SET_MINUTES }
      set_target.alarm ⟨0, 0, 0⟩).2.2.1 (by decide) (by decide) (by decide)).2]
    decide

/-! ## C14: the button task outside mode Normal -/

/-- Outside mode Normal one pass of `button_task` samples the inputs, follows
`set_time_done` and delays; nothing else. -/
theorem button_task_tick_setting_eq (s : Station) (g : gpio_levels)
    (h : s.station_state = STATE_SET_TIME ∨ s.station_state = STATE_SET_ALARM) :
    button_task_tick s g =
      { s with
          button_pressed := s.button_pressed ||| lnot g.ctrl,
          button_up_pressed := s.button_up_pressed ||| lnot g.up,
          button_down_pressed := s.button_down_pressed ||| lnot g.down,
          switch_on := lnot g.switch,
          station_state := if s.set_time_done ≠ 0 then STATE_NORMAL else s.station_state,
          trace := s.trace ++
            [Event.vTaskDelay (50 + 300 *
              ((s.button_pressed ||| lnot g.ctrl ||| (s.button_up_pressed ||| lnot g.up) |||
                (s.button_down_pressed ||| lnot g.down)) % 256))] } := by
  unfold button_task_tick
  rcases h with h | h
  · by_cases hd : s.set_time_done = 0
    · simp [h, hd, STATE_SET_TIME, STATE_NORMAL]
    · simp [h, hd, STATE_SET_TIME, STATE_NORMAL]
  · by_cases hd : s.set_time_done = 0
    · simp [h, hd, STATE_SET_ALARM, STATE_SET_TIME, STATE_NORMAL]
    · simp [h, hd, STATE_SET_ALARM, STATE_SET_TIME, STATE_NORMAL]

/-- Claim C14: in `STATE_SET_TIME` and `STATE_SET_ALARM`, whatever the switch
level, the button levels and the latches, one pass of `button_task` leaves the
clock unchanged (`alarm_status` and `has_alarm_tripped` included, so a ringing
alarm keeps ringing), calls nothing but `vTaskDelay` (no task is created),
clears no latch, leaves `set_time_done` and the stage alone, and moves
`station_state` to `STATE_NORMAL` when `set_time_done` is set and nowhere
otherwise. -/
theorem no_disarm_while_setting (s : Station) (g : gpio_levels)
    (h : s.station_state = STATE_SET_TIME ∨ s.station_state = STATE_SET_ALARM) :
    (button_task_tick s g).clock = s.clock ∧
    clock_is_alarm_ringing (button_task_tick s g).clock = clock_is_alarm_ringing s.clock ∧
    (button_task_tick s g).trace = s.trace ++
      [Event.vTaskDelay (50 + 300 *
        ((s.button_pressed ||| lnot g.ctrl ||| (s.button_up_pressed ||| lnot g.up) |||
          (s.button_down_pressed ||| lnot g.down)) % 256))] ∧
    ((button_task_tick s g).button_pressed = s.button_pressed ||| lnot g.ctrl ∧
      (button_task_tick s g).button_up_pressed = s.button_up_pressed ||| lnot g.up ∧
      (button_task_tick s g).button_down_pressed = s.button_down_pressed ||| lnot g.down) ∧
    ((s.button_pressed ≠ 0 → (button_task_tick s g).button_pressed ≠ 0) ∧
      (s.button_up_pressed ≠ 0 → (button_task_tick s g).button_up_pressed ≠ 0) ∧
      (s.button_down_pressed ≠ 0 → (button_task_tick s g).button_down_pressed ≠ 0)) ∧
    ((button_task_tick s g).set_time_done = s.set_time_done ∧
      (button_task_tick s g).stage = s.stage) ∧
    (s.set_time_done ≠ 0 → (button_task_tick s g).station_state = STATE_NORMAL) ∧
    (s.set_time_done = 0 → (button_task_tick s g).station_state = s.station_state) := by
  rw [button_task_tick_setting_eq s g h]
  refine ⟨rfl, rfl, rfl, ⟨rfl, rfl, rfl⟩, ⟨?_, ?_, ?_⟩, ⟨rfl, rfl⟩, ?_, ?_⟩
  · intro hb; exact lor_ne_zero _ _ (Or.inl hb)
  · intro hb; exact lor_ne_zero _ _ (Or.inl hb)
  · intro hb; exact lor_ne_zero _ _ (Or.inl hb)
  · intro hd
    show (if s.set_time_done ≠ 0 then STATE_NORMAL else s.station_state) = STATE_NORMAL
    rw [if_pos hd]
  · intro hd
    show (if s.set_time_done ≠ 0 then STATE_NORMAL else s.station_state) = s.station_state
    rw [if_neg (fun hn => hn hd)]

/-- Claim C14 on a station in `STATE_SET_ALARM` with a ringing alarm and the
switch disengaged: the alarm still rings after the pass. -/
theorem no_disarm_while_setting_witness :
    (setting_alarm_ringing.station_state = STATE_SET_ALARM ∧
      clock_is_alarm_ringing setting_alarm_ringing.clock = 1 ∧
      setting_alarm_ringing.button_up_pressed ≠ 0) ∧
    clock_is_alarm_ringing (button_task_tick setting_alarm_ringing ⟨1, 1, 1, 1⟩).clock =
      clock_is_alarm_ringing setting_alarm_ringing.clock ∧
    (button_task_tick setting_alarm_ringing ⟨1, 1, 1, 1⟩).button_up_pressed ≠ 0 ∧
    (button_task_tick setting_alarm_ringing ⟨1, 1, 1, 1⟩).station_state = STATE_SET_ALARM :=
  have h := no_disarm_while_setting setting_alarm_ringing ⟨1, 1, 1, 1⟩ (Or.inr (by decide))
  ⟨by decide, h.2.1, h.2.2.2.2.1.2.1 (by decide), by decide⟩

end StationCore
